import Mathlib

/-!
Verification of the easypay payment library (Django app `easypay`).

Shallow embedding of the parts of the source the claims are about:
* `easypay/models.py` — `AbstractPayment`: fields, `calculate_tax`,
  `mark_as_paid`, `mark_as_failed`, `mark_as_cancelled`, `mark_as_refunded`,
  `can_cancel`.
* `easypay/utils.py` — `mask_card_number`.
* `easypay/client.py` — `EasyPayClient.approve_payment` (success path,
  amount-integrity check) and `EasyPayClient.cancel_payment` (local
  precondition checks before the transport call).
* `easypay/sandbox/views.py` — `SandboxCallbackView._handle_callback`:
  the idempotency / row-lock discipline, modelled as an interleaving of
  two callback deliveries over a shared record.

Conventions: Django `CharField`s are `String` (empty string is the model
default), `DecimalField(decimal_places=0)` amounts are `Nat` (KRW amounts,
non-negative 10-digit integers), datetimes are `Nat` timestamps, and
`null=True` columns are `Option`.
-/

set_option maxHeartbeats 4000000

namespace EasyPay

/-! ## Payment record (easypay/models.py, `AbstractPayment`)

`status` is stored exactly as Django stores it: a string column whose
intended values are the five `PaymentStatus` choices ("pending",
"completed", "failed", "cancelled", "refunded"); neither `save()` nor
`setattr` validates the choice, so the embedding keeps it a plain string. -/

structure Payment where
  pk : Nat
  hash_id : String
  pg_tid : String
  authorization_id : String
  amount : Nat
  supply_amount : Nat
  vat_amount : Nat
  tax_free_amount : Nat
  is_taxable : Bool
  status : String
  pay_method_type_code : String
  card_name : String
  card_no : String
  client_ip : String
  client_user_agent : String
  created_at : Nat
  paid_at : Option Nat
  deriving DecidableEq

/-- Source `AbstractPayment.is_paid`: `self.status == PaymentStatus.COMPLETED`. -/
def Payment.is_paid (p : Payment) : Bool :=
  p.status == "completed"

/-- Source `AbstractPayment.can_cancel`:
`self.status == PaymentStatus.COMPLETED and bool(self.pg_tid)`. -/
def Payment.can_cancel (p : Payment) : Bool :=
  p.status == "completed" && p.pg_tid != ""

/-! ## Tax decomposition (easypay/models.py, `calculate_tax`)

The source computes `supply_amount` as
`(Decimal(str(amount)) / Decimal("1.1")).quantize(Decimal("1"), ROUND_HALF_UP)`.
For a non-negative integral `amount` `a` this is round-half-up of the exact
rational `10*a/11`, which for naturals equals `(20*a + 11) / 22` (floor of
`10*a/11 + 1/2`; an exact tie `10*a/11 = k + 1/2` is impossible because
`20*a = 22*k + 11` has even left side and odd right side, and the 28
significant digits of the default `Decimal` context leave ≥ 18 fractional
digits for a 10-digit column while the fractional part `r/11` of `10*a/11`
is never within `10^-18` of `1/2`, so the intermediate division rounding
cannot move the quantize result). -/

def supplyAmountOf (amount : Nat) : Nat :=
  (20 * amount + 11) / 22

/-- Source `AbstractPayment.calculate_tax`. `if not self.amount: return` is the
zero test; the taxable branch sets `vat_amount = amount - supply_amount`
(non-negative because `supplyAmountOf a ≤ a`). -/
def calculate_tax (p : Payment) : Payment :=
  if p.amount = 0 then p
  else if p.is_taxable then
    { p with
        supply_amount := supplyAmountOf p.amount
        vat_amount := p.amount - supplyAmountOf p.amount
        tax_free_amount := 0 }
  else
    { p with
        supply_amount := 0
        vat_amount := 0
        tax_free_amount := p.amount }

/-! ## Card-number masking (easypay/utils.py, `mask_card_number`) -/

/-- Models `re.sub(r"[^0-9]", "", card_no)` on the character list. -/
def digitsOf (l : List Char) : List Char :=
  l.filter Char.isDigit

/-- Source `mask_card_number`: empty input → `""`; fewer than 8 digits after
stripping non-digits → input unchanged; otherwise
`f"{digits[:4]}-****-****-{digits[-4:]}"`. -/
def mask_card_number (card_no : String) : String :=
  if card_no = "" then ""
  else
    let digits := digitsOf card_no.data
    if digits.length < 8 then card_no
    else
      String.mk (digits.take 4) ++ "-****-****-" ++
        String.mk (digits.drop (digits.length - 4))

/-! ## State transitions (easypay/models.py)

`mark_as_paid` accepts `**extra_fields` and applies
`setattr(self, field, value)` for exactly those names in
`valid_field_names = {f.name for f in self._meta.get_fields() if
f.concrete}` — that set contains *every* concrete column of the model,
including `id`, `amount`, the tax columns, `is_taxable`, `created_at` and
`paid_at`, and the setattr loop runs *after* the method's own
`status`/`paid_at` assignments, so caller-supplied extras naming those
columns are set and persisted (overriding the method's own writes).
Extra-field values are modelled by the `FieldValue` sum of the column
types of this embedding. A Python caller could also pass a value of a
different type for a recognized name (`setattr` is untyped); the typed
record cannot represent such a state, so `setField` leaves the record
unchanged on a variant mismatch and the claims about persistence carry a
`fieldTypeOk` hypothesis delimiting this scope. -/

/-- A value for one concrete column, at the column's type in this
embedding: string columns, integral (`DecimalField(decimal_places=0)` /
integer pk / timestamp) columns, the boolean column, and the nullable
`paid_at` timestamp. -/
inductive FieldValue where
  | str (v : String)
  | nat (v : Nat)
  | bool (v : Bool)
  | optNat (v : Option Nat)
  deriving DecidableEq

/-- Source `valid_field_names` of `mark_as_paid`: the names of all
concrete fields of `AbstractPayment` (plus the implicit `id` primary key
of a concrete subclass). -/
def validFieldNames : List String :=
  ["id", "hash_id", "pg_tid", "authorization_id", "amount", "supply_amount",
   "vat_amount", "tax_free_amount", "is_taxable", "status",
   "pay_method_type_code", "card_name", "card_no", "client_ip",
   "client_user_agent", "created_at", "paid_at"]

/-- Models `setattr(p, name, val)` over every concrete column; an
unrecognized name, or a value whose variant does not match the column's
type (outside the embedding's scope), leaves the record unchanged. -/
def setField (p : Payment) (name : String) (val : FieldValue) : Payment :=
  if name = "id" then
    (match val with | .nat v => { p with pk := v } | _ => p)
  else if name = "hash_id" then
    (match val with | .str v => { p with hash_id := v } | _ => p)
  else if name = "pg_tid" then
    (match val with | .str v => { p with pg_tid := v } | _ => p)
  else if name = "authorization_id" then
    (match val with | .str v => { p with authorization_id := v } | _ => p)
  else if name = "amount" then
    (match val with | .nat v => { p with amount := v } | _ => p)
  else if name = "supply_amount" then
    (match val with | .nat v => { p with supply_amount := v } | _ => p)
  else if name = "vat_amount" then
    (match val with | .nat v => { p with vat_amount := v } | _ => p)
  else if name = "tax_free_amount" then
    (match val with | .nat v => { p with tax_free_amount := v } | _ => p)
  else if name = "is_taxable" then
    (match val with | .bool v => { p with is_taxable := v } | _ => p)
  else if name = "status" then
    (match val with | .str v => { p with status := v } | _ => p)
  else if name = "pay_method_type_code" then
    (match val with | .str v => { p with pay_method_type_code := v } | _ => p)
  else if name = "card_name" then
    (match val with | .str v => { p with card_name := v } | _ => p)
  else if name = "card_no" then
    (match val with | .str v => { p with card_no := v } | _ => p)
  else if name = "client_ip" then
    (match val with | .str v => { p with client_ip := v } | _ => p)
  else if name = "client_user_agent" then
    (match val with | .str v => { p with client_user_agent := v } | _ => p)
  else if name = "created_at" then
    (match val with | .nat v => { p with created_at := v } | _ => p)
  else if name = "paid_at" then
    (match val with | .optNat v => { p with paid_at := v } | _ => p)
  else p

/-- Models `getattr(p, name)` for the same complete field table. -/
def getField (p : Payment) (name : String) : Option FieldValue :=
  if name = "id" then some (.nat p.pk)
  else if name = "hash_id" then some (.str p.hash_id)
  else if name = "pg_tid" then some (.str p.pg_tid)
  else if name = "authorization_id" then some (.str p.authorization_id)
  else if name = "amount" then some (.nat p.amount)
  else if name = "supply_amount" then some (.nat p.supply_amount)
  else if name = "vat_amount" then some (.nat p.vat_amount)
  else if name = "tax_free_amount" then some (.nat p.tax_free_amount)
  else if name = "is_taxable" then some (.bool p.is_taxable)
  else if name = "status" then some (.str p.status)
  else if name = "pay_method_type_code" then some (.str p.pay_method_type_code)
  else if name = "card_name" then some (.str p.card_name)
  else if name = "card_no" then some (.str p.card_no)
  else if name = "client_ip" then some (.str p.client_ip)
  else if name = "client_user_agent" then some (.str p.client_user_agent)
  else if name = "created_at" then some (.nat p.created_at)
  else if name = "paid_at" then some (.optNat p.paid_at)
  else none

/-- The `for field, value in extra_fields.items(): if field in
valid_field_names: setattr(self, field, value)` loop of `mark_as_paid`.
Python keyword arguments have unique keys; claims that need this carry a
`Nodup` hypothesis on the names. -/
def applyExtras (p : Payment) (extra_fields : List (String × FieldValue)) : Payment :=
  extra_fields.foldl
    (fun q fv => if fv.1 ∈ validFieldNames then setField q fv.1 fv.2 else q) p

/-- Source `AbstractPayment.mark_as_paid(pg_tid="", authorization_id="",
**extra_fields)`: sets `status = COMPLETED`, `paid_at = now()`, overwrites
`pg_tid` / `authorization_id` only when the arguments are truthy
(non-empty), then merges the recognized extra fields (which can therefore
override any of the fields just assigned). -/
def mark_as_paid (p : Payment) (pg_tid authorization_id : String) (now : Nat)
    (extra_fields : List (String × FieldValue)) : Payment :=
  let p1 := { p with status := "completed", paid_at := some now }
  let p2 := if pg_tid ≠ "" then { p1 with pg_tid := pg_tid } else p1
  let p3 :=
    if authorization_id ≠ "" then { p2 with authorization_id := authorization_id }
    else p2
  applyExtras p3 extra_fields

/-- Source `AbstractPayment.mark_as_failed`. -/
def mark_as_failed (p : Payment) : Payment :=
  { p with status := "failed" }

/-- Source `AbstractPayment.mark_as_cancelled` (no precondition check in the
source: it unconditionally sets the status). -/
def mark_as_cancelled (p : Payment) : Payment :=
  { p with status := "cancelled" }

/-- Source `AbstractPayment.mark_as_refunded` (likewise unconditional). -/
def mark_as_refunded (p : Payment) : Payment :=
  { p with status := "refunded" }

/-! ## Operation sequences over a payment record -/

/-- One invocation of a state-transition operation. -/
inductive PaymentOp where
  | paid (pg_tid authorization_id : String) (now : Nat)
      (extra_fields : List (String × FieldValue))
  | failed
  | cancelled
  | refunded
  deriving DecidableEq

def applyOp (p : Payment) : PaymentOp → Payment
  | .paid pg auth now extras => mark_as_paid p pg auth now extras
  | .failed => mark_as_failed p
  | .cancelled => mark_as_cancelled p
  | .refunded => mark_as_refunded p

def runOps (p : Payment) (ops : List PaymentOp) : Payment :=
  ops.foldl applyOp p

/-- The statuses the record passes through, initial state included. -/
def statusTrace (p : Payment) (ops : List PaymentOp) : List String :=
  (ops.scanl applyOp p).map Payment.status

/-- Call-site discipline for an operation: cancellation/refund only on a
record that `can_cancel` (status COMPLETED with a gateway transaction id),
and `mark_as_paid` extras never name the `status` column (no call site in
the repository does). -/
def opOk (p : Payment) : PaymentOp → Prop
  | .paid _ _ _ extras => "status" ∉ extras.map Prod.fst
  | .failed => True
  | .cancelled => p.can_cancel = true
  | .refunded => p.can_cancel = true

/-- An operation sequence each step of which respects `opOk`. -/
inductive GuardedRun : Payment → List PaymentOp → Prop where
  | nil (p : Payment) : GuardedRun p []
  | cons (p : Payment) (op : PaymentOp) (ops : List PaymentOp) :
      opOk p op → GuardedRun (applyOp p op) ops → GuardedRun p (op :: ops)

/-! ## Client operations (easypay/client.py) -/

/-- Source `EasyPayClient._get_order_id`: tries `hash_id`, `order_id`, `id`, `pk`
in order and returns the first truthy value as a string. `AbstractPayment`
has no `order_id` field, and `id`/`pk` coincide, so for the modelled record
the chain is: non-empty `hash_id`, else the primary key. -/
def get_order_id (p : Payment) : String :=
  if p.hash_id ≠ "" then p.hash_id else toString p.pk

/-- The JSON payload `cancel_payment` hands to the transport
(`_request(self.ENDPOINT_CANCEL, payload)`). -/
structure CancelPayload where
  mallId : String
  shopOrderNo : String
  pgTid : String
  cancelReqDate : String
  cancelTypeCode : String
  cancelAmount : Option Int
  cancelReason : Option String
  deriving DecidableEq

/-- Where a `cancel_payment` call ends up before/at the transport boundary:
either a `PaymentCancellationError` raised locally with the given `code`
(zero network calls performed), or exactly one transport request carrying
the given payload. -/
inductive CancelOutcome where
  | localError (code : String)
  | request (payload : CancelPayload)
  deriving DecidableEq

/-- Python truthiness test `not cancel_amount` for an `int | None` value:
true exactly for `None` and `0` (a negative amount is truthy). -/
def intOptFalsy : Option Int → Bool
  | none => true
  | some n => n == 0

/-- Models `cancel_reason[:100] if cancel_reason else` absent. -/
def withCancelReason (pl : CancelPayload) (cancel_reason : String) : CancelPayload :=
  if cancel_reason ≠ "" then { pl with cancelReason := some (cancel_reason.take 100) }
  else pl

/-- Source `EasyPayClient.cancel_payment(payment, cancel_type_code, cancel_amount,
cancel_reason)` up to the transport boundary. `today` stands for
`datetime.now().strftime("%Y%m%d")`. The source raises
`PaymentCancellationError("NO_PG_TID")` when `payment.pg_tid` is falsy, and
inside the `cancel_type_code == "41"` branch raises
`PaymentCancellationError("NO_CANCEL_AMOUNT")` when `not cancel_amount`. -/
def cancel_payment (mall_id : String) (payment : Payment)
    (cancel_type_code : String) (cancel_amount : Option Int)
    (cancel_reason : String) (today : String) : CancelOutcome :=
  if payment.pg_tid = "" then .localError "NO_PG_TID"
  else
    let payload : CancelPayload :=
      { mallId := mall_id
        shopOrderNo := get_order_id payment
        pgTid := payment.pg_tid
        cancelReqDate := today
        cancelTypeCode := cancel_type_code
        cancelAmount := none
        cancelReason := none }
    if cancel_type_code = "41" then
      if intOptFalsy cancel_amount then .localError "NO_CANCEL_AMOUNT"
      else
        .request (withCancelReason { payload with cancelAmount := cancel_amount }
          cancel_reason)
    else .request (withCancelReason payload cancel_reason)

/-- A successful (`resCd == "0000"`) approval response, with the nested
`paymentInfo` / `cardInfo` dictionaries flattened; `none` models an absent
key (the source reads each with `.get(..., default)`). -/
structure ApproveResponse where
  pgTid : Option String
  payMethodTypeCode : Option String
  approvalAmount : Option Int
  cardName : Option String
  cardNo : Option String
  deriving DecidableEq

inductive LogLevel where
  | debug
  | info
  | warning
  | error
  deriving DecidableEq

/-- One structured log event; the amount/transaction fields mirror the
`extra={...}` keys the claims are about (absent keys are `none`). -/
structure LogRecord where
  level : LogLevel
  message : String
  expected_amount : Option Int
  approved_amount : Option Int
  pg_tid : Option String
  deriving DecidableEq

/-- Source `EasyPayClient.approve_payment` from the point where `_request`
returned a successful response: the amount-integrity check
(`int(payment_info.get("approvalAmount", 0)) != int(payment.amount)`)
logs an error-level event with both amounts and the gateway transaction
id, then the function logs the audit info event and returns the response
unchanged; no exception is raised on mismatch. -/
def approve_payment (payment : Payment) (resp : ApproveResponse) :
    ApproveResponse × List LogRecord :=
  let pg_tid := resp.pgTid.getD ""
  let approved_amount := resp.approvalAmount.getD 0
  let expected_amount : Int := payment.amount
  let mismatch_logs : List LogRecord :=
    if approved_amount ≠ expected_amount then
      [{ level := .error
         message := "Payment amount mismatch detected"
         expected_amount := some expected_amount
         approved_amount := some approved_amount
         pg_tid := some pg_tid }]
    else []
  (resp,
    mismatch_logs ++
      [{ level := .info
         message := "Payment approved by EasyPay"
         expected_amount := none
         approved_amount := none
         pg_tid := some pg_tid }])

/-! ## Callback idempotency (easypay/sandbox/views.py,
`SandboxCallbackView._handle_callback`)

Two deliveries of the gateway callback for the same record are modelled as
two threads over a shared database row. Each thread runs the handler's
steps: fetch the record (`SandboxPayment.objects.get`, a plain
read-committed read), the pre-lock `payment.is_paid` short-circuit, the
`select_for_update` row-lock acquisition with its re-fetch, the post-lock
`is_paid` double-check, and — for the lock winner — the gateway Approve
call plus `mark_as_paid` plus commit plus lock release as one atomic step
(the body of `transaction.atomic()`: concurrent plain reads see the old
row until the commit). The gateway Approve is modelled as succeeding,
which is the claim's premise ("the first succeeds"); `approveCalls`
counts the Approve network calls performed. -/

/-- The `mark_as_paid` call made by `_handle_callback` after a successful
approval: `pg_tid` from the response, the callback's `authorizationId`,
and the three string extras from the response's payment/card info. -/
def callback_mark_as_paid (payment : Payment) (resp : ApproveResponse)
    (auth_id : String) (now : Nat) : Payment :=
  mark_as_paid payment (resp.pgTid.getD "") auth_id now
    [("pay_method_type_code", FieldValue.str (resp.payMethodTypeCode.getD "")),
     ("card_name", FieldValue.str (resp.cardName.getD "")),
     ("card_no", FieldValue.str (resp.cardNo.getD ""))]

inductive CallbackPC where
  | fetch
  | precheck
  | acquire
  | recheck
  | approve
  | finished
  deriving DecidableEq

inductive CallbackOutcome where
  | success
  | alreadyProcessed
  deriving DecidableEq

structure ThreadState where
  pc : CallbackPC
  localPayment : Payment
  result : Option CallbackOutcome
  deriving DecidableEq

structure CallbackConfig where
  record : Payment
  lockOwner : Option Bool
  approveCalls : Nat
  t0 : ThreadState
  t1 : ThreadState
  deriving DecidableEq

def getThread (c : CallbackConfig) (i : Bool) : ThreadState :=
  if i then c.t1 else c.t0

def setThread (c : CallbackConfig) (i : Bool) (t : ThreadState) : CallbackConfig :=
  if i then { c with t1 := t } else { c with t0 := t }

/-- One atomic step of thread `i`'s callback handler; `none` when the
thread is finished or blocked on the row lock. -/
def threadStep (resp : ApproveResponse) (auth_id : String) (now : Nat)
    (c : CallbackConfig) (i : Bool) : Option CallbackConfig :=
  let th := getThread c i
  match th.pc with
  | .fetch =>
      some (setThread c i { th with pc := .precheck, localPayment := c.record })
  | .precheck =>
      if th.localPayment.is_paid then
        some (setThread c i
          { th with pc := .finished, result := some .alreadyProcessed })
      else some (setThread c i { th with pc := .acquire })
  | .acquire =>
      match c.lockOwner with
      | some _ => none
      | none =>
          some { setThread c i { th with pc := .recheck, localPayment := c.record }
                   with lockOwner := some i }
  | .recheck =>
      if th.localPayment.is_paid then
        some { setThread c i
                 { th with pc := .finished, result := some .alreadyProcessed }
                 with lockOwner := none }
      else some (setThread c i { th with pc := .approve })
  | .approve =>
      let q := callback_mark_as_paid th.localPayment resp auth_id now
      some { setThread c i
               { th with pc := .finished, result := some .success, localPayment := q }
               with record := q, lockOwner := none,
                    approveCalls := c.approveCalls + 1 }
  | .finished => none

def initCallbackConfig (p0 : Payment) : CallbackConfig :=
  { record := p0
    lockOwner := none
    approveCalls := 0
    t0 := { pc := .fetch, localPayment := p0, result := none }
    t1 := { pc := .fetch, localPayment := p0, result := none } }

/-- Run a schedule: at each scheduler slot the named thread takes its next
step if it is enabled, otherwise the slot is a no-op. -/
def runCallbacks (resp : ApproveResponse) (auth_id : String) (now : Nat)
    (p0 : Payment) (sched : List Bool) : CallbackConfig :=
  sched.foldl (fun c i => (threadStep resp auth_id now c i).getD c)
    (initCallbackConfig p0)

/-- Number of threads that returned the success outcome. -/
def succCount (c : CallbackConfig) : Nat :=
  (if c.t0.result = some .success then 1 else 0) +
    (if c.t1.result = some .success then 1 else 0)

/-! ## Concrete records for witnesses -/

/-- A freshly created PENDING record (amount 29,900 KRW, taxable). -/
def samplePending : Payment :=
  { pk := 1
    hash_id := "abc123def456"
    pg_tid := ""
    authorization_id := ""
    amount := 29900
    supply_amount := 0
    vat_amount := 0
    tax_free_amount := 0
    is_taxable := true
    status := "pending"
    pay_method_type_code := ""
    card_name := ""
    card_no := ""
    client_ip := ""
    client_user_agent := ""
    created_at := 100
    paid_at := none }

/-- A COMPLETED record carrying a gateway transaction id. -/
def sampleCompleted : Payment :=
  { samplePending with
      status := "completed"
      pg_tid := "T8901"
      paid_at := some 200 }

/-- A successful approval response whose reported amount (1,000) differs
from `samplePending.amount` (29,900). -/
def sampleMismatchResponse : ApproveResponse :=
  { pgTid := some "TX42"
    payMethodTypeCode := some "11"
    approvalAmount := some 1000
    cardName := some "국민카드"
    cardNo := some "1234-****-****-3456" }

/-- A successful approval response matching `samplePending`'s amount, as
delivered to the sandbox callback. -/
def sampleResponse : ApproveResponse :=
  { pgTid := some "T555"
    payMethodTypeCode := some "11"
    approvalAmount := some 29900
    cardName := some "국민카드"
    cardNo := some "1234-****-****-3456" }

/-- The inductive invariant of the two-delivery interleaving: `p0` is the
initial record, `qq` the record after the single successful
approve-and-commit. -/
structure CInv (p0 qq : Payment) (c : CallbackConfig) : Prop where
  countLe : c.approveCalls ≤ 1
  rec0 : c.approveCalls = 0 → c.record = p0
  rec1 : c.approveCalls = 1 → c.record = qq
  lockTh : ∀ i, c.lockOwner = some i →
    ((getThread c i).pc = CallbackPC.recheck ∨
      (getThread c i).pc = CallbackPC.approve) ∧
    (getThread c i).localPayment = c.record
  thLock : ∀ i, ((getThread c i).pc = CallbackPC.recheck ∨
      (getThread c i).pc = CallbackPC.approve) → c.lockOwner = some i
  mono : ∀ i, (getThread c i).localPayment.is_paid = true →
    c.record.is_paid = true
  appUnpaid : ∀ i, (getThread c i).pc = CallbackPC.approve →
    (getThread c i).localPayment.is_paid = false
  finRes : ∀ i, (getThread c i).pc = CallbackPC.finished ↔
    (getThread c i).result.isSome
  alreadyPaid : ∀ i, (getThread c i).result =
      some CallbackOutcome.alreadyProcessed → c.record.is_paid = true
  succEq : succCount c = c.approveCalls

/-! # Theorems -/

/-! ## Tax decomposition helpers -/

theorem supplyAmountOf_le (a : Nat) : supplyAmountOf a ≤ a := by
  have h1 := Nat.div_add_mod (20 * a + 11) 22
  have h2 := Nat.mod_lt (20 * a + 11) (by norm_num : 0 < 22)
  unfold supplyAmountOf
  omega

theorem supplyAmountOf_bounds (a : Nat) :
    22 * supplyAmountOf a ≤ 20 * a + 11 ∧ 20 * a + 11 < 22 * supplyAmountOf a + 22 := by
  have h1 := Nat.div_add_mod (20 * a + 11) 22
  have h2 := Nat.mod_lt (20 * a + 11) (by norm_num : 0 < 22)
  unfold supplyAmountOf
  omega

/-- Claim C6: For a record with positive amount `a`: if taxable,
`calculate_tax` sets `supply_amount` to round-half-up of `a / 1.1` —
characterized by `22·s ≤ 20·a + 11 < 22·s + 22`, i.e. `s` is the integer
nearest `10a/11` with ties up — `vat_amount = a - supply_amount`,
`tax_free_amount = 0`, and the three fields sum to `a` (for `a = 29900`:
`supply_amount = 27182`, `vat_amount = 2718`); if non-taxable it sets
`tax_free_amount = a` and zeroes the other two, again summing to `a`. -/
theorem calculate_tax_spec (p : Payment) (hpos : 0 < p.amount) :
    (p.is_taxable = true →
      (calculate_tax p).supply_amount = supplyAmountOf p.amount ∧
      22 * (calculate_tax p).supply_amount ≤ 20 * p.amount + 11 ∧
      20 * p.amount + 11 < 22 * (calculate_tax p).supply_amount + 22 ∧
      (calculate_tax p).vat_amount = p.amount - (calculate_tax p).supply_amount ∧
      (calculate_tax p).tax_free_amount = 0 ∧
      (calculate_tax p).supply_amount + (calculate_tax p).vat_amount +
        (calculate_tax p).tax_free_amount = p.amount) ∧
    (p.is_taxable = false →
      (calculate_tax p).tax_free_amount = p.amount ∧
      (calculate_tax p).supply_amount = 0 ∧
      (calculate_tax p).vat_amount = 0 ∧
      (calculate_tax p).supply_amount + (calculate_tax p).vat_amount +
        (calculate_tax p).tax_free_amount = p.amount) ∧
    (p.amount = 29900 → p.is_taxable = true →
      (calculate_tax p).supply_amount = 27182 ∧ (calculate_tax p).vat_amount = 2718) := by
  have hne : ¬ p.amount = 0 := by omega
  have hle := supplyAmountOf_le p.amount
  have hbd := supplyAmountOf_bounds p.amount
  refine ⟨?_, ?_, ?_⟩
  · intro htax
    have hcal : calculate_tax p =
        { p with
            supply_amount := supplyAmountOf p.amount
            vat_amount := p.amount - supplyAmountOf p.amount
            tax_free_amount := 0 } := by
      simp [calculate_tax, hne, htax]
    rw [hcal]
    refine ⟨rfl, hbd.1, hbd.2, rfl, rfl, ?_⟩
    show supplyAmountOf p.amount + (p.amount - supplyAmountOf p.amount) + 0 = p.amount
    omega
  · intro htax
    have hcal : calculate_tax p =
        { p with supply_amount := 0, vat_amount := 0, tax_free_amount := p.amount } := by
      simp [calculate_tax, hne, htax]
    rw [hcal]
    refine ⟨rfl, rfl, rfl, ?_⟩
    show 0 + 0 + p.amount = p.amount
    omega
  · intro h29 htax
    have hcal : calculate_tax p =
        { p with
            supply_amount := supplyAmountOf p.amount
            vat_amount := p.amount - supplyAmountOf p.amount
            tax_free_amount := 0 } := by
      simp [calculate_tax, hne, htax]
    rw [hcal]
    constructor
    · show supplyAmountOf p.amount = 27182
      rw [h29]
      norm_num [supplyAmountOf]
    · show p.amount - supplyAmountOf p.amount = 2718
      rw [h29]
      norm_num [supplyAmountOf]

/-- Witness for C6 at `samplePending` (taxable, amount 29,900). -/
theorem calculate_tax_spec_witness :
    0 < samplePending.amount ∧
    ((calculate_tax samplePending).supply_amount = 27182 ∧
      (calculate_tax samplePending).vat_amount = 2718 ∧
      (calculate_tax samplePending).supply_amount +
        (calculate_tax samplePending).vat_amount +
        (calculate_tax samplePending).tax_free_amount = samplePending.amount) :=
  ⟨by decide,
    ((calculate_tax_spec samplePending (by decide)).2.2 rfl rfl).1,
    ((calculate_tax_spec samplePending (by decide)).2.2 rfl rfl).2,
    ((calculate_tax_spec samplePending (by decide)).1 rfl).2.2.2.2.2⟩

/-! ## Cancellation preconditions -/

/-- Claim C5: A record whose `pg_tid` is empty makes `cancel_payment` fail
locally with `PaymentCancellationError` code `NO_PG_TID`, in any cancel
mode, with zero transport calls (the outcome is `localError`, which is
reached before the transport payload is even built). -/
theorem cancel_payment_no_pg_tid (mall_id : String) (payment : Payment)
    (cancel_type_code : String) (cancel_amount : Option Int)
    (cancel_reason today : String) (h : payment.pg_tid = "") :
    cancel_payment mall_id payment cancel_type_code cancel_amount cancel_reason today =
      CancelOutcome.localError "NO_PG_TID" := by
  simp [cancel_payment, h]

/-- Witness for C5: `samplePending` has no `pg_tid`; both the FULL ("40")
and PARTIAL ("41") modes fail with `NO_PG_TID`. -/
theorem cancel_payment_no_pg_tid_witness :
    samplePending.pg_tid = "" ∧
    cancel_payment "T0021792" samplePending "40" none "" "20260101" =
      CancelOutcome.localError "NO_PG_TID" ∧
    cancel_payment "T0021792" samplePending "41" (some 100) "" "20260101" =
      CancelOutcome.localError "NO_PG_TID" :=
  ⟨by decide,
    cancel_payment_no_pg_tid "T0021792" samplePending "40" none "" "20260101" (by decide),
    cancel_payment_no_pg_tid "T0021792" samplePending "41" (some 100) "" "20260101"
      (by decide)⟩

/-- Counterexample to C4: A PARTIAL ("41") cancellation with the negative
amount `-1` — which is *not* strictly greater than zero — does **not**
fail with `NO_CANCEL_AMOUNT`: the truthiness test `not cancel_amount` only
catches `None` and `0`, so the request reaches the transport carrying
`cancelAmount = -1`. -/
theorem cancel_payment_partial_negative_counterexample :
    ¬ ((-1 : Int) > 0) ∧ sampleCompleted.pg_tid ≠ "" ∧
    cancel_payment "T0021792" sampleCompleted "41" (some (-1)) "" "20260101" =
      CancelOutcome.request
        { mallId := "T0021792"
          shopOrderNo := "abc123def456"
          pgTid := "T8901"
          cancelReqDate := "20260101"
          cancelTypeCode := "41"
          cancelAmount := some (-1)
          cancelReason := none } := by
  refine ⟨by norm_num, by decide, by decide⟩

/-- Claim C4 (amended): For a record with a non-empty `pg_tid`, a PARTIAL
("41") `cancel_payment` fails locally with `NO_CANCEL_AMOUNT` (before any
network call) exactly when the amount is missing (`None`) or equal to
zero; a negative amount passes the check. -/
theorem cancel_payment_partial_no_amount (mall_id : String) (payment : Payment)
    (cancel_amount : Option Int) (cancel_reason today : String)
    (h : payment.pg_tid ≠ "") :
    (cancel_payment mall_id payment "41" cancel_amount cancel_reason today =
        CancelOutcome.localError "NO_CANCEL_AMOUNT" ↔
      (cancel_amount = none ∨ cancel_amount = some 0)) := by
  cases cancel_amount with
  | none => simp [cancel_payment, h, intOptFalsy]
  | some n =>
      by_cases hn : n = 0 <;> simp [cancel_payment, h, intOptFalsy, hn]

/-- Witness for C4 (amended): with a `pg_tid` present, a PARTIAL cancel
with no amount fails with `NO_CANCEL_AMOUNT`. -/
theorem cancel_payment_partial_no_amount_witness :
    sampleCompleted.pg_tid ≠ "" ∧
    cancel_payment "T0021792" sampleCompleted "41" none "" "20260101" =
      CancelOutcome.localError "NO_CANCEL_AMOUNT" :=
  ⟨by decide,
    (cancel_payment_partial_no_amount "T0021792" sampleCompleted none "" "20260101"
      (by decide)).mpr (Or.inl rfl)⟩

/-! ## Approval amount-integrity check -/

/-- Claim C1: When the gateway's successful approval response reports an
approved amount different from the record's expected amount,
`approve_payment` emits an error-level log event carrying both amounts and
the gateway transaction id, and still returns the response object to the
caller (the function is total — nothing is raised on mismatch). -/
theorem approve_payment_amount_mismatch_logged (payment : Payment)
    (resp : ApproveResponse)
    (h : resp.approvalAmount.getD 0 ≠ (payment.amount : Int)) :
    (approve_payment payment resp).1 = resp ∧
    { level := LogLevel.error
      message := "Payment amount mismatch detected"
      expected_amount := some (payment.amount : Int)
      approved_amount := some (resp.approvalAmount.getD 0)
      pg_tid := some (resp.pgTid.getD "") } ∈ (approve_payment payment resp).2 := by
  refine ⟨rfl, ?_⟩
  simp [approve_payment, h]

/-- Witness for C1: approving `samplePending` (expected 29,900) with a
response reporting 1,000 returns the response and logs the mismatch. -/
theorem approve_payment_amount_mismatch_logged_witness :
    sampleMismatchResponse.approvalAmount.getD 0 ≠ (samplePending.amount : Int) ∧
    ((approve_payment samplePending sampleMismatchResponse).1 = sampleMismatchResponse ∧
      { level := LogLevel.error
        message := "Payment amount mismatch detected"
        expected_amount := some (samplePending.amount : Int)
        approved_amount := some (sampleMismatchResponse.approvalAmount.getD 0)
        pg_tid := some (sampleMismatchResponse.pgTid.getD "") } ∈
        (approve_payment samplePending sampleMismatchResponse).2) :=
  ⟨by decide,
    approve_payment_amount_mismatch_logged samplePending sampleMismatchResponse
      (by decide)⟩

/-! ## Card-number masking -/

theorem digitsOf_append (a b : List Char) :
    digitsOf (a ++ b) = digitsOf a ++ digitsOf b :=
  List.filter_append a b

theorem digitsOf_of_all {l : List Char} (h : ∀ c ∈ l, c.isDigit = true) :
    digitsOf l = l :=
  List.filter_eq_self.mpr h

theorem mem_digitsOf_isDigit {l : List Char} {c : Char} (h : c ∈ digitsOf l) :
    c.isDigit = true :=
  (List.mem_filter.mp h).2

theorem eq_empty_of_data_nil {s : String} (h : s.data = []) : s = "" := by
  cases s
  simp_all

/-- Unfolding of `mask_card_number` in the long-digits case. -/
theorem mask_card_number_long {s : String} (hs : s ≠ "")
    (hlen : ¬ (digitsOf s.data).length < 8) :
    mask_card_number s =
      String.mk ((digitsOf s.data).take 4) ++ "-****-****-" ++
        String.mk ((digitsOf s.data).drop ((digitsOf s.data).length - 4)) := by
  simp [mask_card_number, hs, hlen]

/-- Claim C9: `mask_card_number` on the empty string yields the empty
string, and any input with fewer than 8 digit characters (after stripping
non-digits) is returned unchanged — the function is total (never raises)
and never produces a partially masked form for short inputs. -/
theorem mask_card_number_short_inputs :
    mask_card_number "" = "" ∧
    ∀ s : String, (digitsOf s.data).length < 8 → mask_card_number s = s := by
  refine ⟨rfl, ?_⟩
  intro s h
  by_cases hs : s = ""
  · subst hs; rfl
  · simp [mask_card_number, hs, h]

/-- Witness for C9: `"12-34"` holds only 4 digits and is unchanged. -/
theorem mask_card_number_short_inputs_witness :
    (digitsOf ("12-34" : String).data).length < 8 ∧
      mask_card_number "12-34" = "12-34" :=
  ⟨by decide, mask_card_number_short_inputs.2 "12-34" (by decide)⟩

/-- Claim C8: `mask_card_number "1234567890123456" = "1234-****-****-3456"`,
and `mask_card_number` is idempotent on every string (in particular an
already-masked card number is unchanged by re-masking). -/
theorem mask_card_number_mask_idem :
    mask_card_number "1234567890123456" = "1234-****-****-3456" ∧
    ∀ s : String, mask_card_number (mask_card_number s) = mask_card_number s := by
  refine ⟨by decide, ?_⟩
  intro s
  by_cases hs : s = ""
  · subst hs; rfl
  by_cases hlen : (digitsOf s.data).length < 8
  · have h1 : mask_card_number s = s := by simp [mask_card_number, hs, hlen]
    rw [h1]
    exact h1
  · -- the masked form: first 4 digits, literal separator, last 4 digits
    have hmask := mask_card_number_long hs hlen
    set ds := digitsOf s.data with hds
    have hdig : ∀ c ∈ ds, c.isDigit = true := fun c hc => mem_digitsOf_isDigit hc
    have htake : digitsOf (ds.take 4) = ds.take 4 :=
      digitsOf_of_all fun c hc => hdig c (List.take_subset 4 ds hc)
    have hdrop : digitsOf (ds.drop (ds.length - 4)) = ds.drop (ds.length - 4) :=
      digitsOf_of_all fun c hc => hdig c (List.drop_subset (ds.length - 4) ds hc)
    have hlentake : (ds.take 4).length = 4 := by
      rw [List.length_take]; omega
    have hlendrop : (ds.drop (ds.length - 4)).length = 4 := by
      rw [List.length_drop]; omega
    -- the digit content of the masked string
    have hrdata : (mask_card_number s).data =
        ds.take 4 ++ ("-****-****-" : String).data ++ ds.drop (ds.length - 4) := by
      rw [hmask, String.data_append, String.data_append]
    have hrdigits : digitsOf (mask_card_number s).data =
        ds.take 4 ++ ds.drop (ds.length - 4) := by
      rw [hrdata, digitsOf_append, digitsOf_append, htake, hdrop]
      have hsep : digitsOf ("-****-****-" : String).data = [] := by decide
      rw [hsep, List.append_nil]
    have hrlen : (digitsOf (mask_card_number s).data).length = 8 := by
      rw [hrdigits, List.length_append, hlentake, hlendrop]
    have hrne : mask_card_number s ≠ "" := by
      intro hcon
      have : (mask_card_number s).data = [] := by rw [hcon]
      rw [hrdata] at this
      simp at this
    have hrnotlt : ¬ (digitsOf (mask_card_number s).data).length < 8 := by
      rw [hrlen]; omega
    rw [mask_card_number_long hrne hrnotlt, hrlen, hrdigits]
    rw [List.take_left' hlentake]
    have h44 : (8 : Nat) - 4 = (ds.take 4).length := by rw [hlentake]
    rw [h44, List.drop_left]
    rw [hmask]

/-! ## `mark_as_paid` field-table lemmas -/

theorem setField_not_mem (p : Payment) (m : String) (v : FieldValue)
    (h : m ∉ validFieldNames) : setField p m v = p := by
  simp only [validFieldNames, List.mem_cons, List.not_mem_nil, or_false] at h
  push_neg at h
  obtain ⟨h1, h2, h3, h4, h5, h6, h7, h8, h9, h10, h11, h12, h13, h14, h15,
    h16, h17⟩ := h
  simp only [setField, if_neg h1, if_neg h2, if_neg h3, if_neg h4, if_neg h5,
    if_neg h6, if_neg h7, if_neg h8, if_neg h9, if_neg h10, if_neg h11,
    if_neg h12, if_neg h13, if_neg h14, if_neg h15, if_neg h16, if_neg h17]

theorem getField_not_mem (p : Payment) (n : String)
    (h : n ∉ validFieldNames) : getField p n = none := by
  simp only [validFieldNames, List.mem_cons, List.not_mem_nil, or_false] at h
  push_neg at h
  obtain ⟨h1, h2, h3, h4, h5, h6, h7, h8, h9, h10, h11, h12, h13, h14, h15,
    h16, h17⟩ := h
  simp only [getField, if_neg h1, if_neg h2, if_neg h3, if_neg h4, if_neg h5,
    if_neg h6, if_neg h7, if_neg h8, if_neg h9, if_neg h10, if_neg h11,
    if_neg h12, if_neg h13, if_neg h14, if_neg h15, if_neg h16, if_neg h17]

/-- Assigning any other column leaves `pk` unchanged. -/
theorem setField_pk_ne (p : Payment) (m : String) (v : FieldValue)
    (h : m ≠ "id") : (setField p m v).pk = p.pk := by
  by_cases hm : m ∈ validFieldNames
  · fin_cases hm <;> first | (cases v <;> rfl) | exact absurd rfl h
  · rw [setField_not_mem p m v hm]

/-- Assigning any other column leaves `hash_id` unchanged. -/
theorem setField_hash_id_ne (p : Payment) (m : String) (v : FieldValue)
    (h : m ≠ "hash_id") : (setField p m v).hash_id = p.hash_id := by
  by_cases hm : m ∈ validFieldNames
  · fin_cases hm <;> first | (cases v <;> rfl) | exact absurd rfl h
  · rw [setField_not_mem p m v hm]

/-- Assigning any other column leaves `pg_tid` unchanged. -/
theorem setField_pg_tid_ne (p : Payment) (m : String) (v : FieldValue)
    (h : m ≠ "pg_tid") : (setField p m v).pg_tid = p.pg_tid := by
  by_cases hm : m ∈ validFieldNames
  · fin_cases hm <;> first | (cases v <;> rfl) | exact absurd rfl h
  · rw [setField_not_mem p m v hm]

/-- Assigning any other column leaves `authorization_id` unchanged. -/
theorem setField_authorization_id_ne (p : Payment) (m : String) (v : FieldValue)
    (h : m ≠ "authorization_id") : (setField p m v).authorization_id = p.authorization_id := by
  by_cases hm : m ∈ validFieldNames
  · fin_cases hm <;> first | (cases v <;> rfl) | exact absurd rfl h
  · rw [setField_not_mem p m v hm]

/-- Assigning any other column leaves `amount` unchanged. -/
theorem setField_amount_ne (p : Payment) (m : String) (v : FieldValue)
    (h : m ≠ "amount") : (setField p m v).amount = p.amount := by
  by_cases hm : m ∈ validFieldNames
  · fin_cases hm <;> first | (cases v <;> rfl) | exact absurd rfl h
  · rw [setField_not_mem p m v hm]

/-- Assigning any other column leaves `supply_amount` unchanged. -/
theorem setField_supply_amount_ne (p : Payment) (m : String) (v : FieldValue)
    (h : m ≠ "supply_amount") : (setField p m v).supply_amount = p.supply_amount := by
  by_cases hm : m ∈ validFieldNames
  · fin_cases hm <;> first | (cases v <;> rfl) | exact absurd rfl h
  · rw [setField_not_mem p m v hm]

/-- Assigning any other column leaves `vat_amount` unchanged. -/
theorem setField_vat_amount_ne (p : Payment) (m : String) (v : FieldValue)
    (h : m ≠ "vat_amount") : (setField p m v).vat_amount = p.vat_amount := by
  by_cases hm : m ∈ validFieldNames
  · fin_cases hm <;> first | (cases v <;> rfl) | exact absurd rfl h
  · rw [setField_not_mem p m v hm]

/-- Assigning any other column leaves `tax_free_amount` unchanged. -/
theorem setField_tax_free_amount_ne (p : Payment) (m : String) (v : FieldValue)
    (h : m ≠ "tax_free_amount") : (setField p m v).tax_free_amount = p.tax_free_amount := by
  by_cases hm : m ∈ validFieldNames
  · fin_cases hm <;> first | (cases v <;> rfl) | exact absurd rfl h
  · rw [setField_not_mem p m v hm]

/-- Assigning any other column leaves `is_taxable` unchanged. -/
theorem setField_is_taxable_ne (p : Payment) (m : String) (v : FieldValue)
    (h : m ≠ "is_taxable") : (setField p m v).is_taxable = p.is_taxable := by
  by_cases hm : m ∈ validFieldNames
  · fin_cases hm <;> first | (cases v <;> rfl) | exact absurd rfl h
  · rw [setField_not_mem p m v hm]

/-- Assigning any other column leaves `status` unchanged. -/
theorem setField_status_ne (p : Payment) (m : String) (v : FieldValue)
    (h : m ≠ "status") : (setField p m v).status = p.status := by
  by_cases hm : m ∈ validFieldNames
  · fin_cases hm <;> first | (cases v <;> rfl) | exact absurd rfl h
  · rw [setField_not_mem p m v hm]

/-- Assigning any other column leaves `pay_method_type_code` unchanged. -/
theorem setField_pay_method_type_code_ne (p : Payment) (m : String) (v : FieldValue)
    (h : m ≠ "pay_method_type_code") : (setField p m v).pay_method_type_code = p.pay_method_type_code := by
  by_cases hm : m ∈ validFieldNames
  · fin_cases hm <;> first | (cases v <;> rfl) | exact absurd rfl h
  · rw [setField_not_mem p m v hm]

/-- Assigning any other column leaves `card_name` unchanged. -/
theorem setField_card_name_ne (p : Payment) (m : String) (v : FieldValue)
    (h : m ≠ "card_name") : (setField p m v).card_name = p.card_name := by
  by_cases hm : m ∈ validFieldNames
  · fin_cases hm <;> first | (cases v <;> rfl) | exact absurd rfl h
  · rw [setField_not_mem p m v hm]

/-- Assigning any other column leaves `card_no` unchanged. -/
theorem setField_card_no_ne (p : Payment) (m : String) (v : FieldValue)
    (h : m ≠ "card_no") : (setField p m v).card_no = p.card_no := by
  by_cases hm : m ∈ validFieldNames
  · fin_cases hm <;> first | (cases v <;> rfl) | exact absurd rfl h
  · rw [setField_not_mem p m v hm]

/-- Assigning any other column leaves `client_ip` unchanged. -/
theorem setField_client_ip_ne (p : Payment) (m : String) (v : FieldValue)
    (h : m ≠ "client_ip") : (setField p m v).client_ip = p.client_ip := by
  by_cases hm : m ∈ validFieldNames
  · fin_cases hm <;> first | (cases v <;> rfl) | exact absurd rfl h
  · rw [setField_not_mem p m v hm]

/-- Assigning any other column leaves `client_user_agent` unchanged. -/
theorem setField_client_user_agent_ne (p : Payment) (m : String) (v : FieldValue)
    (h : m ≠ "client_user_agent") : (setField p m v).client_user_agent = p.client_user_agent := by
  by_cases hm : m ∈ validFieldNames
  · fin_cases hm <;> first | (cases v <;> rfl) | exact absurd rfl h
  · rw [setField_not_mem p m v hm]

/-- Assigning any other column leaves `created_at` unchanged. -/
theorem setField_created_at_ne (p : Payment) (m : String) (v : FieldValue)
    (h : m ≠ "created_at") : (setField p m v).created_at = p.created_at := by
  by_cases hm : m ∈ validFieldNames
  · fin_cases hm <;> first | (cases v <;> rfl) | exact absurd rfl h
  · rw [setField_not_mem p m v hm]

/-- Assigning any other column leaves `paid_at` unchanged. -/
theorem setField_paid_at_ne (p : Payment) (m : String) (v : FieldValue)
    (h : m ≠ "paid_at") : (setField p m v).paid_at = p.paid_at := by
  by_cases hm : m ∈ validFieldNames
  · fin_cases hm <;> first | (cases v <;> rfl) | exact absurd rfl h
  · rw [setField_not_mem p m v hm]

theorem getField_setField_ne (p : Payment) (n m : String) (v : FieldValue)
    (h : n ≠ m) : getField (setField p m v) n = getField p n := by
  by_cases hn : n ∈ validFieldNames
  · fin_cases hn
    · exact congrArg (fun x => some (FieldValue.nat x))
        (setField_pk_ne p m v (Ne.symm h))
    · exact congrArg (fun x => some (FieldValue.str x))
        (setField_hash_id_ne p m v (Ne.symm h))
    · exact congrArg (fun x => some (FieldValue.str x))
        (setField_pg_tid_ne p m v (Ne.symm h))
    · exact congrArg (fun x => some (FieldValue.str x))
        (setField_authorization_id_ne p m v (Ne.symm h))
    · exact congrArg (fun x => some (FieldValue.nat x))
        (setField_amount_ne p m v (Ne.symm h))
    · exact congrArg (fun x => some (FieldValue.nat x))
        (setField_supply_amount_ne p m v (Ne.symm h))
    · exact congrArg (fun x => some (FieldValue.nat x))
        (setField_vat_amount_ne p m v (Ne.symm h))
    · exact congrArg (fun x => some (FieldValue.nat x))
        (setField_tax_free_amount_ne p m v (Ne.symm h))
    · exact congrArg (fun x => some (FieldValue.bool x))
        (setField_is_taxable_ne p m v (Ne.symm h))
    · exact congrArg (fun x => some (FieldValue.str x))
        (setField_status_ne p m v (Ne.symm h))
    · exact congrArg (fun x => some (FieldValue.str x))
        (setField_pay_method_type_code_ne p m v (Ne.symm h))
    · exact congrArg (fun x => some (FieldValue.str x))
        (setField_card_name_ne p m v (Ne.symm h))
    · exact congrArg (fun x => some (FieldValue.str x))
        (setField_card_no_ne p m v (Ne.symm h))
    · exact congrArg (fun x => some (FieldValue.str x))
        (setField_client_ip_ne p m v (Ne.symm h))
    · exact congrArg (fun x => some (FieldValue.str x))
        (setField_client_user_agent_ne p m v (Ne.symm h))
    · exact congrArg (fun x => some (FieldValue.nat x))
        (setField_created_at_ne p m v (Ne.symm h))
    · exact congrArg (fun x => some (FieldValue.optNat x))
        (setField_paid_at_ne p m v (Ne.symm h))
  · rw [getField_not_mem _ _ hn, getField_not_mem _ _ hn]

theorem applyExtras_cons (p : Payment) (fv : String × FieldValue)
    (rest : List (String × FieldValue)) :
    applyExtras p (fv :: rest) =
      applyExtras (if fv.1 ∈ validFieldNames then setField p fv.1 fv.2 else p) rest :=
  rfl

theorem applyExtras_status (extras : List (String × FieldValue)) :
    ∀ p : Payment, "status" ∉ extras.map Prod.fst →
      (applyExtras p extras).status = p.status := by
  induction extras with
  | nil => intro p _; rfl
  | cons fv rest ih =>
      intro p h
      rw [List.map_cons, List.mem_cons] at h
      push_neg at h
      rw [applyExtras_cons]
      by_cases hm : fv.1 ∈ validFieldNames
      · simp only [hm, if_true]
        rw [ih _ h.2, setField_status_ne p fv.1 fv.2 (fun hc => h.1 hc.symm)]
      · simp only [hm, if_false]
        exact ih p h.2

theorem applyExtras_getField_not_named (extras : List (String × FieldValue)) :
    ∀ p : Payment, ∀ n : String,
      (∀ fv ∈ extras, fv.1 ∈ validFieldNames → fv.1 ≠ n) →
      getField (applyExtras p extras) n = getField p n := by
  induction extras with
  | nil => intro p n _; rfl
  | cons fv rest ih =>
      intro p n h
      rw [applyExtras_cons]
      by_cases hm : fv.1 ∈ validFieldNames
      · simp only [hm, if_true]
        rw [ih _ n fun g hg hgm => h g (List.mem_cons_of_mem fv hg) hgm]
        exact getField_setField_ne p n fv.1 fv.2
          fun hc => h fv (List.mem_cons_self fv rest) hm hc.symm
      · simp only [hm, if_false]
        exact ih p n fun g hg hgm => h g (List.mem_cons_of_mem fv hg) hgm

/-- Rewrites `mark_as_paid` into a single-record normal form: the explicitly
updated columns, then the extras merge. -/
theorem mark_as_paid_eq (p : Payment) (pg auth : String) (now : Nat)
    (extras : List (String × FieldValue)) :
    mark_as_paid p pg auth now extras =
      applyExtras
        { p with
            status := "completed"
            paid_at := some now
            pg_tid := if pg ≠ "" then pg else p.pg_tid
            authorization_id := if auth ≠ "" then auth else p.authorization_id }
        extras := by
  by_cases hpg : pg ≠ "" <;> by_cases hauth : auth ≠ "" <;>
    simp [mark_as_paid, hpg, hauth]

theorem mark_as_paid_status (p : Payment) (pg auth : String) (now : Nat)
    (extras : List (String × FieldValue)) (h : "status" ∉ extras.map Prod.fst) :
    (mark_as_paid p pg auth now extras).status = "completed" := by
  rw [mark_as_paid_eq, applyExtras_status extras _ h]

theorem getField_pg_tid (q : Payment) :
    getField q "pg_tid" = some (FieldValue.str q.pg_tid) := rfl

theorem getField_authorization_id (q : Payment) :
    getField q "authorization_id" = some (FieldValue.str q.authorization_id) := rfl

theorem mark_as_paid_pg_tid (p : Payment) (pg auth : String) (now : Nat)
    (extras : List (String × FieldValue))
    (h : ∀ fv ∈ extras, fv.1 ∈ validFieldNames → fv.1 ≠ "pg_tid") :
    (mark_as_paid p pg auth now extras).pg_tid =
      if pg ≠ "" then pg else p.pg_tid := by
  rw [mark_as_paid_eq]
  have h4 := applyExtras_getField_not_named extras
    { p with
        status := "completed"
        paid_at := some now
        pg_tid := if pg ≠ "" then pg else p.pg_tid
        authorization_id := if auth ≠ "" then auth else p.authorization_id }
    "pg_tid" h
  rw [getField_pg_tid, getField_pg_tid] at h4
  exact FieldValue.str.inj (Option.some.inj h4)

theorem mark_as_paid_authorization_id (p : Payment) (pg auth : String) (now : Nat)
    (extras : List (String × FieldValue))
    (h : ∀ fv ∈ extras, fv.1 ∈ validFieldNames → fv.1 ≠ "authorization_id") :
    (mark_as_paid p pg auth now extras).authorization_id =
      if auth ≠ "" then auth else p.authorization_id := by
  rw [mark_as_paid_eq]
  have h4 := applyExtras_getField_not_named extras
    { p with
        status := "completed"
        paid_at := some now
        pg_tid := if pg ≠ "" then pg else p.pg_tid
        authorization_id := if auth ≠ "" then auth else p.authorization_id }
    "authorization_id" h
  rw [getField_authorization_id, getField_authorization_id] at h4
  exact FieldValue.str.inj (Option.some.inj h4)

/-! ## C7: `mark_as_paid` merges recognized fields, drops unknown ones -/

/-- Claim C10: `mark_as_paid` modifies only `status`, `paid_at`, `pg_tid`,
`authorization_id` and the recognized caller-supplied extra fields: every
concrete column other than those four that is not named by a recognized
extra keeps its prior value (stated over the complete concrete-field
table, so in particular `amount`, the tax columns, `is_taxable` and
`created_at` are unchanged whenever no extra names them). When the
`pg_tid` (resp. `authorization_id`) argument is the empty string and no
recognized extra overrides the column, the stored value is kept, so a
record can transition to COMPLETED while its `pg_tid` remains empty. -/
theorem mark_as_paid_frame (p : Payment) (pg auth : String) (now : Nat)
    (extras : List (String × FieldValue)) :
    (∀ n : String, n ≠ "status" → n ≠ "paid_at" → n ≠ "pg_tid" →
      n ≠ "authorization_id" →
      (∀ fv ∈ extras, fv.1 ∈ validFieldNames → fv.1 ≠ n) →
      getField (mark_as_paid p pg auth now extras) n = getField p n) ∧
    (pg = "" → (∀ fv ∈ extras, fv.1 ∈ validFieldNames → fv.1 ≠ "pg_tid") →
      (mark_as_paid p pg auth now extras).pg_tid = p.pg_tid) ∧
    (auth = "" →
      (∀ fv ∈ extras, fv.1 ∈ validFieldNames → fv.1 ≠ "authorization_id") →
      (mark_as_paid p pg auth now extras).authorization_id = p.authorization_id) ∧
    (p.pg_tid = "" → pg = "" → "status" ∉ extras.map Prod.fst →
      (∀ fv ∈ extras, fv.1 ∈ validFieldNames → fv.1 ≠ "pg_tid") →
      (mark_as_paid p pg auth now extras).status = "completed" ∧
      (mark_as_paid p pg auth now extras).pg_tid = "") := by
  refine ⟨?_, ?_, ?_, ?_⟩
  · intro n h1 h2 h3 h4 hnames
    rw [mark_as_paid_eq, applyExtras_getField_not_named extras _ n hnames]
    by_cases hn : n ∈ validFieldNames
    · fin_cases hn <;>
        first
          | rfl
          | exact absurd rfl h1
          | exact absurd rfl h2
          | exact absurd rfl h3
          | exact absurd rfl h4
    · rw [getField_not_mem _ _ hn, getField_not_mem _ _ hn]
  · intro hpg hnames
    rw [mark_as_paid_pg_tid p pg auth now extras hnames]
    simp [hpg]
  · intro hauth hnames
    rw [mark_as_paid_authorization_id p pg auth now extras hnames]
    simp [hauth]
  · intro hptid hpg hstatus hnames
    refine ⟨mark_as_paid_status p pg auth now extras hstatus, ?_⟩
    rw [mark_as_paid_pg_tid p pg auth now extras hnames]
    simp [hpg, hptid]

/-- Witness for C10: marking the pending record paid with an empty
`pg_tid` argument yields a COMPLETED record whose `pg_tid` is still empty
and whose amount and card-name columns are untouched. -/
theorem mark_as_paid_frame_witness :
    (samplePending.pg_tid = "" ∧ ("" : String) = "") ∧
    ((mark_as_paid samplePending "" "A9" 9
        [("card_no", FieldValue.str "9999")]).status = "completed" ∧
      (mark_as_paid samplePending "" "A9" 9
        [("card_no", FieldValue.str "9999")]).pg_tid = "" ∧
      getField (mark_as_paid samplePending "" "A9" 9
          [("card_no", FieldValue.str "9999")]) "amount" =
        getField samplePending "amount" ∧
      getField (mark_as_paid samplePending "" "A9" 9
          [("card_no", FieldValue.str "9999")]) "card_name" =
        getField samplePending "card_name") := by
  have h := mark_as_paid_frame samplePending "" "A9" 9
    [("card_no", FieldValue.str "9999")]
  have h5 := h.2.2.2 (by decide) rfl (by decide) (by decide)
  exact ⟨⟨by decide, rfl⟩, h5.1, h5.2,
    h.1 "amount" (by decide) (by decide) (by decide) (by decide) (by decide),
    h.1 "card_name" (by decide) (by decide) (by decide) (by decide) (by decide)⟩

/-! ## C3: CANCELLED/REFUNDED requires a prior COMPLETED state -/

theorem runOps_cons (p : Payment) (op : PaymentOp) (ops : List PaymentOp) :
    runOps p (op :: ops) = runOps (applyOp p op) ops := rfl

theorem statusTrace_cons (p : Payment) (op : PaymentOp) (ops : List PaymentOp) :
    statusTrace p (op :: ops) = p.status :: statusTrace (applyOp p op) ops := by
  unfold statusTrace
  rw [List.scanl_cons, List.singleton_append, List.map_cons]

/-- Counterexample to C3: The state-transition methods carry no guards:
`mark_as_cancelled` invoked directly on a PENDING record yields CANCELLED
even though COMPLETED never occurred in the record's history. -/
theorem cancelled_without_completed_counterexample :
    samplePending.status = "pending" ∧
    (runOps samplePending [PaymentOp.cancelled]).status = "cancelled" ∧
    "completed" ∉ statusTrace samplePending [PaymentOp.cancelled] := by
  refine ⟨by decide, by decide, by decide⟩

theorem guarded_run_aux (ops : List PaymentOp) :
    ∀ p : Payment, GuardedRun p ops →
      ((runOps p ops).status = "cancelled" ∨ (runOps p ops).status = "refunded") →
      "completed" ∈ statusTrace p ops ∨
        (p.status = "cancelled" ∨ p.status = "refunded") := by
  induction ops with
  | nil => intro p _ hfin; exact Or.inr hfin
  | cons op rest ih =>
      intro p hg hfin
      cases hg with
      | cons _ _ _ hok hrest =>
          rw [runOps_cons] at hfin
          rw [statusTrace_cons]
          rcases ih (applyOp p op) hrest hfin with hmem | hterm
          · exact Or.inl (List.mem_cons_of_mem _ hmem)
          · cases op with
            | paid pg auth now extras =>
                have hst : (applyOp p (PaymentOp.paid pg auth now extras)).status =
                    "completed" :=
                  mark_as_paid_status p pg auth now extras hok
                rw [hst] at hterm
                rcases hterm with hc | hc <;> exact absurd hc (by decide)
            | failed =>
                have hst : (applyOp p PaymentOp.failed).status = "failed" := rfl
                rw [hst] at hterm
                rcases hterm with hc | hc <;> exact absurd hc (by decide)
            | cancelled =>
                have hcan : p.can_cancel = true := hok
                have h1 := (Bool.and_eq_true _ _).mp hcan
                have hcc : p.status = "completed" := eq_of_beq h1.1
                rw [hcc]
                exact Or.inl (List.mem_cons_self _ _)
            | refunded =>
                have hcan : p.can_cancel = true := hok
                have h1 := (Bool.and_eq_true _ _).mp hcan
                have hcc : p.status = "completed" := eq_of_beq h1.1
                rw [hcc]
                exact Or.inl (List.mem_cons_self _ _)

/-- Claim C3 (amended): Along operation sequences that respect the
call-site guards — cancellation/refund performed only when `can_cancel`
holds (COMPLETED with a gateway transaction id), and `mark_as_paid` extras
never naming the status column — every record reachable from PENDING whose
final status is CANCELLED or REFUNDED passed through COMPLETED. The bare
`mark_as_cancelled` / `mark_as_refunded` methods themselves do not enforce
this (see the counterexample). -/
theorem guarded_cancelled_implies_previously_completed (p : Payment)
    (ops : List PaymentOp) (hpending : p.status = "pending")
    (hg : GuardedRun p ops)
    (hfin : (runOps p ops).status = "cancelled" ∨
      (runOps p ops).status = "refunded") :
    "completed" ∈ statusTrace p ops := by
  rcases guarded_run_aux ops p hg hfin with h | h
  · exact h
  · rw [hpending] at h
    rcases h with hc | hc <;> exact absurd hc (by decide)

/-- Witness for C3 (amended): pay (acquiring a `pg_tid`) then cancel; the
trace pending → completed → cancelled contains COMPLETED. -/
theorem guarded_cancelled_implies_previously_completed_witness :
    samplePending.status = "pending" ∧
    (runOps samplePending
      [PaymentOp.paid "T123" "A9" 5 [], PaymentOp.cancelled]).status = "cancelled" ∧
    "completed" ∈ statusTrace samplePending
      [PaymentOp.paid "T123" "A9" 5 [], PaymentOp.cancelled] := by
  have hg : GuardedRun samplePending
      [PaymentOp.paid "T123" "A9" 5 [], PaymentOp.cancelled] := by
    refine GuardedRun.cons _ _ _ ?_ (GuardedRun.cons _ _ _ ?_ (GuardedRun.nil _))
    · show "status" ∉ ([] : List (String × FieldValue)).map Prod.fst
      decide
    · show (applyOp samplePending (PaymentOp.paid "T123" "A9" 5 [])).can_cancel = true
      decide
  refine ⟨by decide, by decide, ?_⟩
  exact guarded_cancelled_implies_previously_completed samplePending
    [PaymentOp.paid "T123" "A9" 5 [], PaymentOp.cancelled] (by decide) hg
    (Or.inl (by decide))

/-! ## C2: idempotency of concurrent callback deliveries -/

theorem callback_mark_as_paid_is_paid (p : Payment) (resp : ApproveResponse)
    (auth_id : String) (now : Nat) :
    (callback_mark_as_paid p resp auth_id now).is_paid = true := by
  unfold callback_mark_as_paid Payment.is_paid
  rw [mark_as_paid_status p (resp.pgTid.getD "") auth_id now _ (by simp)]
  rfl

theorem getThread_setThread_self (c : CallbackConfig) (t : ThreadState) (i : Bool) :
    getThread (setThread c i t) i = t := by
  cases i <;> rfl

theorem getThread_setThread_ne (c : CallbackConfig) (t : ThreadState) (i j : Bool)
    (h : j ≠ i) : getThread (setThread c i t) j = getThread c j := by
  cases i <;> cases j <;> first | rfl | exact absurd rfl h

theorem record_setThread (c : CallbackConfig) (i : Bool) (t : ThreadState) :
    (setThread c i t).record = c.record := by
  cases i <;> rfl

theorem lockOwner_setThread (c : CallbackConfig) (i : Bool) (t : ThreadState) :
    (setThread c i t).lockOwner = c.lockOwner := by
  cases i <;> rfl

theorem approveCalls_setThread (c : CallbackConfig) (i : Bool) (t : ThreadState) :
    (setThread c i t).approveCalls = c.approveCalls := by
  cases i <;> rfl

theorem succCount_setThread (c : CallbackConfig) (i : Bool) (t : ThreadState)
    (h : (t.result = some CallbackOutcome.success) =
      ((getThread c i).result = some CallbackOutcome.success)) :
    succCount (setThread c i t) = succCount c := by
  cases i
  · replace h : (t.result = some CallbackOutcome.success) =
        (c.t0.result = some CallbackOutcome.success) := h
    show ((if t.result = some CallbackOutcome.success then 1 else 0) +
        if c.t1.result = some CallbackOutcome.success then 1 else 0) =
      ((if c.t0.result = some CallbackOutcome.success then 1 else 0) +
        if c.t1.result = some CallbackOutcome.success then 1 else 0)
    simp only [h]
  · replace h : (t.result = some CallbackOutcome.success) =
        (c.t1.result = some CallbackOutcome.success) := h
    show ((if c.t0.result = some CallbackOutcome.success then 1 else 0) +
        if t.result = some CallbackOutcome.success then 1 else 0) =
      ((if c.t0.result = some CallbackOutcome.success then 1 else 0) +
        if c.t1.result = some CallbackOutcome.success then 1 else 0)
    simp only [h]

theorem cinv_init (p0 qq : Payment) : CInv p0 qq (initCallbackConfig p0) := by
  refine ⟨Nat.zero_le _, fun _ => rfl, ?_, ?_, ?_, ?_, ?_, ?_, ?_, rfl⟩
  · intro h1; exact absurd h1 (by simp [initCallbackConfig])
  · intro i hl; exact absurd hl (by simp [initCallbackConfig])
  · intro i hpc
    cases i <;> rcases hpc with h | h <;>
      exact absurd h (by simp [initCallbackConfig, getThread])
  · intro i hp
    cases i <;> exact hp
  · intro i hpc
    cases i <;> exact absurd hpc (by simp [initCallbackConfig, getThread])
  · intro i
    cases i <;> simp [initCallbackConfig, getThread]
  · intro i hres
    cases i <;> exact absurd hres (by simp [initCallbackConfig, getThread])

/-- Preservation for a step that rewrites thread `i`'s program counter (and
possibly refreshes its local snapshot from the record) without touching the
lock, the record, the result or the approve counter, and stays outside the
critical section and the finished state. -/
theorem cinv_plain_step (p0 qq : Payment) (c : CallbackConfig) (i : Bool)
    (t : ThreadState) (h : CInv p0 qq c)
    (hres : t.result = (getThread c i).result)
    (hold1 : (getThread c i).pc ≠ CallbackPC.recheck)
    (hold2 : (getThread c i).pc ≠ CallbackPC.approve)
    (hold3 : (getThread c i).pc ≠ CallbackPC.finished)
    (hnew1 : t.pc ≠ CallbackPC.recheck) (hnew2 : t.pc ≠ CallbackPC.approve)
    (hnew3 : t.pc ≠ CallbackPC.finished)
    (hloc : t.localPayment = (getThread c i).localPayment ∨
      t.localPayment = c.record) :
    CInv p0 qq (setThread c i t) := by
  refine ⟨?_, ?_, ?_, ?_, ?_, ?_, ?_, ?_, ?_, ?_⟩
  · rw [approveCalls_setThread]; exact h.countLe
  · intro h0; rw [approveCalls_setThread] at h0
    rw [record_setThread]; exact h.rec0 h0
  · intro h1; rw [approveCalls_setThread] at h1
    rw [record_setThread]; exact h.rec1 h1
  · intro j hl
    rw [lockOwner_setThread] at hl
    rw [record_setThread]
    by_cases hj : j = i
    · subst hj
      rcases (h.lockTh j hl).1 with hx | hx
      · exact absurd hx hold1
      · exact absurd hx hold2
    · rw [getThread_setThread_ne c _ i j hj]
      exact h.lockTh j hl
  · intro j hpcj
    rw [lockOwner_setThread]
    by_cases hj : j = i
    · subst hj
      rw [getThread_setThread_self] at hpcj
      rcases hpcj with hx | hx
      · exact absurd hx hnew1
      · exact absurd hx hnew2
    · rw [getThread_setThread_ne c _ i j hj] at hpcj
      exact h.thLock j hpcj
  · intro j hpj
    rw [record_setThread]
    by_cases hj : j = i
    · subst hj
      rw [getThread_setThread_self] at hpj
      rcases hloc with hl | hl
      · rw [hl] at hpj; exact h.mono j hpj
      · rw [hl] at hpj; exact hpj
    · rw [getThread_setThread_ne c _ i j hj] at hpj
      exact h.mono j hpj
  · intro j hpcj
    by_cases hj : j = i
    · subst hj
      rw [getThread_setThread_self] at hpcj
      exact absurd hpcj hnew2
    · rw [getThread_setThread_ne c _ i j hj] at hpcj
      rw [getThread_setThread_ne c _ i j hj]
      exact h.appUnpaid j hpcj
  · intro j
    by_cases hj : j = i
    · subst hj
      rw [getThread_setThread_self]
      constructor
      · intro hfin; exact absurd hfin hnew3
      · intro hsome
        rw [hres] at hsome
        exact absurd ((h.finRes j).mpr hsome) hold3
    · rw [getThread_setThread_ne c _ i j hj]
      exact h.finRes j
  · intro j hresj
    rw [record_setThread]
    by_cases hj : j = i
    · subst hj
      rw [getThread_setThread_self] at hresj
      rw [hres] at hresj
      exact h.alreadyPaid j hresj
    · rw [getThread_setThread_ne c _ i j hj] at hresj
      exact h.alreadyPaid j hresj
  · rw [approveCalls_setThread]
    rw [succCount_setThread c i t (by rw [hres])]
    exact h.succEq

theorem succCount_setThread_notsucc (c : CallbackConfig) (i : Bool) (t : ThreadState)
    (h1 : t.result ≠ some CallbackOutcome.success)
    (h2 : (getThread c i).result ≠ some CallbackOutcome.success) :
    succCount (setThread c i t) = succCount c := by
  cases i
  · replace h2 : c.t0.result ≠ some CallbackOutcome.success := h2
    show ((if t.result = some CallbackOutcome.success then 1 else 0) +
        if c.t1.result = some CallbackOutcome.success then 1 else 0) =
      ((if c.t0.result = some CallbackOutcome.success then 1 else 0) +
        if c.t1.result = some CallbackOutcome.success then 1 else 0)
    rw [if_neg h1, if_neg h2]
  · replace h2 : c.t1.result ≠ some CallbackOutcome.success := h2
    show ((if c.t0.result = some CallbackOutcome.success then 1 else 0) +
        if t.result = some CallbackOutcome.success then 1 else 0) =
      ((if c.t0.result = some CallbackOutcome.success then 1 else 0) +
        if c.t1.result = some CallbackOutcome.success then 1 else 0)
    rw [if_neg h1, if_neg h2]

theorem succCount_setThread_succ (c : CallbackConfig) (i : Bool) (t : ThreadState)
    (h1 : t.result = some CallbackOutcome.success)
    (h2 : (getThread c i).result ≠ some CallbackOutcome.success) :
    succCount (setThread c i t) = succCount c + 1 := by
  cases i
  · replace h2 : c.t0.result ≠ some CallbackOutcome.success := h2
    show ((if t.result = some CallbackOutcome.success then 1 else 0) +
        if c.t1.result = some CallbackOutcome.success then 1 else 0) =
      ((if c.t0.result = some CallbackOutcome.success then 1 else 0) +
        if c.t1.result = some CallbackOutcome.success then 1 else 0) + 1
    rw [if_pos h1, if_neg h2]
    omega
  · replace h2 : c.t1.result ≠ some CallbackOutcome.success := h2
    show ((if c.t0.result = some CallbackOutcome.success then 1 else 0) +
        if t.result = some CallbackOutcome.success then 1 else 0) =
      ((if c.t0.result = some CallbackOutcome.success then 1 else 0) +
        if c.t1.result = some CallbackOutcome.success then 1 else 0) + 1
    rw [if_pos h1, if_neg h2]

/-- A thread that is not at `finished` has no result yet. -/
theorem result_none_of_pc_ne_finished (p0 qq : Payment) (c : CallbackConfig)
    (h : CInv p0 qq c) (i : Bool) (hne : (getThread c i).pc ≠ CallbackPC.finished) :
    (getThread c i).result = none := by
  cases hr : (getThread c i).result with
  | none => rfl
  | some v =>
      exact absurd ((h.finRes i).mpr (by rw [hr]; rfl)) hne

/-- Preservation for the pre-lock `is_paid` short-circuit: the thread saw a
completed snapshot and finishes with the already-processed outcome. -/
theorem cinv_already_precheck (p0 qq : Payment) (c : CallbackConfig) (i : Bool)
    (h : CInv p0 qq c) (hpc : (getThread c i).pc = CallbackPC.precheck)
    (hpaid : (getThread c i).localPayment.is_paid = true) :
    CInv p0 qq (setThread c i
      { getThread c i with
          pc := CallbackPC.finished
          result := some CallbackOutcome.alreadyProcessed }) := by
  refine ⟨?_, ?_, ?_, ?_, ?_, ?_, ?_, ?_, ?_, ?_⟩
  · rw [approveCalls_setThread]; exact h.countLe
  · intro h0; rw [approveCalls_setThread] at h0
    rw [record_setThread]; exact h.rec0 h0
  · intro h1; rw [approveCalls_setThread] at h1
    rw [record_setThread]; exact h.rec1 h1
  · intro j hl
    rw [lockOwner_setThread] at hl
    rw [record_setThread]
    by_cases hj : j = i
    · subst hj
      rcases (h.lockTh j hl).1 with hx | hx <;>
        · rw [hpc] at hx
          exact absurd hx (by decide)
    · rw [getThread_setThread_ne c _ i j hj]
      exact h.lockTh j hl
  · intro j hpcj
    rw [lockOwner_setThread]
    by_cases hj : j = i
    · subst hj
      rw [getThread_setThread_self] at hpcj
      simp at hpcj
    · rw [getThread_setThread_ne c _ i j hj] at hpcj
      exact h.thLock j hpcj
  · intro j hpj
    rw [record_setThread]
    by_cases hj : j = i
    · subst hj
      rw [getThread_setThread_self] at hpj
      exact h.mono j hpj
    · rw [getThread_setThread_ne c _ i j hj] at hpj
      exact h.mono j hpj
  · intro j hpcj
    by_cases hj : j = i
    · subst hj
      rw [getThread_setThread_self] at hpcj
      simp at hpcj
    · rw [getThread_setThread_ne c _ i j hj] at hpcj
      rw [getThread_setThread_ne c _ i j hj]
      exact h.appUnpaid j hpcj
  · intro j
    by_cases hj : j = i
    · subst hj
      rw [getThread_setThread_self]
      simp
    · rw [getThread_setThread_ne c _ i j hj]
      exact h.finRes j
  · intro j hresj
    rw [record_setThread]
    by_cases hj : j = i
    · subst hj
      exact h.mono j hpaid
    · rw [getThread_setThread_ne c _ i j hj] at hresj
      exact h.alreadyPaid j hresj
  · rw [approveCalls_setThread]
    rw [succCount_setThread_notsucc c i _ (by simp) ?_]
    · exact h.succEq
    · rw [result_none_of_pc_ne_finished p0 qq c h i (by rw [hpc]; decide)]
      simp

/-- Preservation for a successful lock acquisition: the thread enters the
critical section and refreshes its snapshot from the locked row. -/
theorem cinv_acquire (p0 qq : Payment) (c : CallbackConfig) (i : Bool)
    (h : CInv p0 qq c) (hpc : (getThread c i).pc = CallbackPC.acquire)
    (hlock : c.lockOwner = none) :
    CInv p0 qq
      { setThread c i
          { getThread c i with pc := CallbackPC.recheck, localPayment := c.record }
        with lockOwner := some i } := by
  refine ⟨?_, ?_, ?_, ?_, ?_, ?_, ?_, ?_, ?_, ?_⟩
  · show (setThread c i _).approveCalls ≤ 1
    rw [approveCalls_setThread]; exact h.countLe
  · intro h0
    replace h0 : (setThread c i _).approveCalls = 0 := h0
    rw [approveCalls_setThread] at h0
    show (setThread c i _).record = p0
    rw [record_setThread]; exact h.rec0 h0
  · intro h1
    replace h1 : (setThread c i _).approveCalls = 1 := h1
    rw [approveCalls_setThread] at h1
    show (setThread c i _).record = qq
    rw [record_setThread]; exact h.rec1 h1
  · intro j hl
    replace hl : some i = some j := hl
    obtain rfl : i = j := Option.some.inj hl
    show ((getThread (setThread c i _) i).pc = CallbackPC.recheck ∨
        (getThread (setThread c i _) i).pc = CallbackPC.approve) ∧
      (getThread (setThread c i _) i).localPayment = (setThread c i _).record
    rw [getThread_setThread_self, record_setThread]
    exact ⟨Or.inl rfl, rfl⟩
  · intro j hpcj
    show some i = some j
    by_cases hj : j = i
    · rw [hj]
    · replace hpcj : (getThread (setThread c i _) j).pc = CallbackPC.recheck ∨
          (getThread (setThread c i _) j).pc = CallbackPC.approve := hpcj
      rw [getThread_setThread_ne c _ i j hj] at hpcj
      exact absurd ((h.thLock j hpcj).symm.trans hlock) (by simp)
  · intro j hpj
    show (setThread c i _).record.is_paid = true
    rw [record_setThread]
    by_cases hj : j = i
    · subst hj
      replace hpj : (getThread (setThread c j _) j).localPayment.is_paid = true := hpj
      rw [getThread_setThread_self] at hpj
      exact hpj
    · replace hpj : (getThread (setThread c i _) j).localPayment.is_paid = true := hpj
      rw [getThread_setThread_ne c _ i j hj] at hpj
      exact h.mono j hpj
  · intro j hpcj
    by_cases hj : j = i
    · subst hj
      replace hpcj : (getThread (setThread c j _) j).pc = CallbackPC.approve := hpcj
      rw [getThread_setThread_self] at hpcj
      simp at hpcj
    · replace hpcj : (getThread (setThread c i _) j).pc = CallbackPC.approve := hpcj
      rw [getThread_setThread_ne c _ i j hj] at hpcj
      show (getThread (setThread c i _) j).localPayment.is_paid = false
      rw [getThread_setThread_ne c _ i j hj]
      exact h.appUnpaid j hpcj
  · intro j
    show (getThread (setThread c i _) j).pc = CallbackPC.finished ↔
      (getThread (setThread c i _) j).result.isSome
    by_cases hj : j = i
    · subst hj
      rw [getThread_setThread_self]
      constructor
      · intro hfin; simp at hfin
      · intro hsome
        exact absurd (hpc.symm.trans ((h.finRes j).mpr hsome)) (by decide)
    · rw [getThread_setThread_ne c _ i j hj]
      exact h.finRes j
  · intro j hresj
    show (setThread c i _).record.is_paid = true
    rw [record_setThread]
    by_cases hj : j = i
    · subst hj
      replace hresj : (getThread (setThread c j _) j).result =
          some CallbackOutcome.alreadyProcessed := hresj
      rw [getThread_setThread_self] at hresj
      exact h.alreadyPaid j hresj
    · replace hresj : (getThread (setThread c i _) j).result =
          some CallbackOutcome.alreadyProcessed := hresj
      rw [getThread_setThread_ne c _ i j hj] at hresj
      exact h.alreadyPaid j hresj
  · show succCount (setThread c i _) = (setThread c i _).approveCalls
    rw [approveCalls_setThread, succCount_setThread c i
      { getThread c i with pc := CallbackPC.recheck, localPayment := c.record } rfl]
    exact h.succEq

/-- Preservation for the post-lock double-check finding the record already
completed: the thread releases the lock and finishes with the
already-processed outcome. -/
theorem cinv_release_already (p0 qq : Payment) (c : CallbackConfig) (i : Bool)
    (h : CInv p0 qq c) (hpc : (getThread c i).pc = CallbackPC.recheck)
    (hpaid : (getThread c i).localPayment.is_paid = true) :
    CInv p0 qq
      { setThread c i
          { getThread c i with
              pc := CallbackPC.finished
              result := some CallbackOutcome.alreadyProcessed }
        with lockOwner := none } := by
  refine ⟨?_, ?_, ?_, ?_, ?_, ?_, ?_, ?_, ?_, ?_⟩
  · show (setThread c i _).approveCalls ≤ 1
    rw [approveCalls_setThread]; exact h.countLe
  · intro h0
    replace h0 : (setThread c i _).approveCalls = 0 := h0
    rw [approveCalls_setThread] at h0
    show (setThread c i _).record = p0
    rw [record_setThread]; exact h.rec0 h0
  · intro h1
    replace h1 : (setThread c i _).approveCalls = 1 := h1
    rw [approveCalls_setThread] at h1
    show (setThread c i _).record = qq
    rw [record_setThread]; exact h.rec1 h1
  · intro j hl
    replace hl : (none : Option Bool) = some j := hl
    exact absurd hl (by simp)
  · intro j hpcj
    replace hpcj : (getThread (setThread c i _) j).pc = CallbackPC.recheck ∨
        (getThread (setThread c i _) j).pc = CallbackPC.approve := hpcj
    by_cases hj : j = i
    · subst hj
      rw [getThread_setThread_self] at hpcj
      simp at hpcj
    · rw [getThread_setThread_ne c _ i j hj] at hpcj
      exact absurd (Option.some.inj
        ((h.thLock j hpcj).symm.trans (h.thLock i (Or.inl hpc)))) hj
  · intro j hpj
    show (setThread c i _).record.is_paid = true
    rw [record_setThread]
    by_cases hj : j = i
    · subst hj
      replace hpj : (getThread (setThread c j _) j).localPayment.is_paid = true := hpj
      rw [getThread_setThread_self] at hpj
      exact h.mono j hpj
    · replace hpj : (getThread (setThread c i _) j).localPayment.is_paid = true := hpj
      rw [getThread_setThread_ne c _ i j hj] at hpj
      exact h.mono j hpj
  · intro j hpcj
    by_cases hj : j = i
    · subst hj
      replace hpcj : (getThread (setThread c j _) j).pc = CallbackPC.approve := hpcj
      rw [getThread_setThread_self] at hpcj
      simp at hpcj
    · replace hpcj : (getThread (setThread c i _) j).pc = CallbackPC.approve := hpcj
      rw [getThread_setThread_ne c _ i j hj] at hpcj
      show (getThread (setThread c i _) j).localPayment.is_paid = false
      rw [getThread_setThread_ne c _ i j hj]
      exact h.appUnpaid j hpcj
  · intro j
    show (getThread (setThread c i _) j).pc = CallbackPC.finished ↔
      (getThread (setThread c i _) j).result.isSome
    by_cases hj : j = i
    · subst hj
      rw [getThread_setThread_self]
      simp
    · rw [getThread_setThread_ne c _ i j hj]
      exact h.finRes j
  · intro j hresj
    show (setThread c i _).record.is_paid = true
    rw [record_setThread]
    by_cases hj : j = i
    · subst hj
      exact h.mono j hpaid
    · replace hresj : (getThread (setThread c i _) j).result =
          some CallbackOutcome.alreadyProcessed := hresj
      rw [getThread_setThread_ne c _ i j hj] at hresj
      exact h.alreadyPaid j hresj
  · show succCount (setThread c i _) = (setThread c i _).approveCalls
    rw [approveCalls_setThread]
    rw [succCount_setThread_notsucc c i
      { getThread c i with
          pc := CallbackPC.finished
          result := some CallbackOutcome.alreadyProcessed } (by simp) ?_]
    · exact h.succEq
    · rw [result_none_of_pc_ne_finished p0 qq c h i (by rw [hpc]; decide)]
      simp

/-- Preservation for the post-lock double-check finding the record still
pending: the thread moves on to the approve step, keeping the lock. -/
theorem cinv_recheck_continue (p0 qq : Payment) (c : CallbackConfig) (i : Bool)
    (h : CInv p0 qq c) (hpc : (getThread c i).pc = CallbackPC.recheck)
    (hpaid : (getThread c i).localPayment.is_paid = false) :
    CInv p0 qq (setThread c i { getThread c i with pc := CallbackPC.approve }) := by
  refine ⟨?_, ?_, ?_, ?_, ?_, ?_, ?_, ?_, ?_, ?_⟩
  · rw [approveCalls_setThread]; exact h.countLe
  · intro h0; rw [approveCalls_setThread] at h0
    rw [record_setThread]; exact h.rec0 h0
  · intro h1; rw [approveCalls_setThread] at h1
    rw [record_setThread]; exact h.rec1 h1
  · intro j hl
    rw [lockOwner_setThread] at hl
    rw [record_setThread]
    by_cases hj : j = i
    · subst hj
      rw [getThread_setThread_self]
      exact ⟨Or.inr rfl, (h.lockTh j hl).2⟩
    · rw [getThread_setThread_ne c _ i j hj]
      exact h.lockTh j hl
  · intro j hpcj
    rw [lockOwner_setThread]
    by_cases hj : j = i
    · subst hj
      exact h.thLock j (Or.inl hpc)
    · rw [getThread_setThread_ne c _ i j hj] at hpcj
      exact h.thLock j hpcj
  · intro j hpj
    rw [record_setThread]
    by_cases hj : j = i
    · subst hj
      rw [getThread_setThread_self] at hpj
      exact h.mono j hpj
    · rw [getThread_setThread_ne c _ i j hj] at hpj
      exact h.mono j hpj
  · intro j hpcj
    by_cases hj : j = i
    · subst hj
      rw [getThread_setThread_self]
      exact hpaid
    · rw [getThread_setThread_ne c _ i j hj]
      exact h.appUnpaid j (by rwa [getThread_setThread_ne c _ i j hj] at hpcj)
  · intro j
    by_cases hj : j = i
    · subst hj
      rw [getThread_setThread_self]
      constructor
      · intro hfin; simp at hfin
      · intro hsome
        exact absurd (hpc.symm.trans ((h.finRes j).mpr hsome)) (by decide)
    · rw [getThread_setThread_ne c _ i j hj]
      exact h.finRes j
  · intro j hresj
    rw [record_setThread]
    by_cases hj : j = i
    · subst hj
      rw [getThread_setThread_self] at hresj
      exact h.alreadyPaid j hresj
    · rw [getThread_setThread_ne c _ i j hj] at hresj
      exact h.alreadyPaid j hresj
  · rw [approveCalls_setThread]
    rw [succCount_setThread c i { getThread c i with pc := CallbackPC.approve } rfl]
    exact h.succEq

/-- Preservation for the winning thread's atomic approve-and-commit: the
gateway Approve call is counted, the record is marked paid, the row lock
is released and the thread finishes successfully. -/
theorem cinv_approve (resp : ApproveResponse) (auth_id : String) (now : Nat)
    (p0 : Payment) (c : CallbackConfig) (i : Bool)
    (h : CInv p0 (callback_mark_as_paid p0 resp auth_id now) c)
    (hpc : (getThread c i).pc = CallbackPC.approve) :
    CInv p0 (callback_mark_as_paid p0 resp auth_id now)
      { setThread c i
          { getThread c i with
              pc := CallbackPC.finished
              result := some CallbackOutcome.success
              localPayment :=
                callback_mark_as_paid (getThread c i).localPayment resp auth_id now }
        with
          record := callback_mark_as_paid (getThread c i).localPayment resp auth_id now
          lockOwner := none
          approveCalls := c.approveCalls + 1 } := by
  have hlock : c.lockOwner = some i := h.thLock i (Or.inr hpc)
  have hloc : (getThread c i).localPayment = c.record := (h.lockTh i hlock).2
  have hunpaid : (getThread c i).localPayment.is_paid = false := h.appUnpaid i hpc
  have hrecunpaid : c.record.is_paid = false := hloc ▸ hunpaid
  have hcount0 : c.approveCalls = 0 := by
    have hle := h.countLe
    rcases Nat.lt_or_ge c.approveCalls 1 with hlt | hge
    · omega
    · have h1 : c.approveCalls = 1 := le_antisymm hle hge
      have hrec := h.rec1 h1
      rw [hrec] at hrecunpaid
      exact absurd ((callback_mark_as_paid_is_paid p0 resp auth_id
        now).symm.trans hrecunpaid) (by decide)
  have hrec : c.record = p0 := h.rec0 hcount0
  have hq : callback_mark_as_paid (getThread c i).localPayment resp auth_id now =
      callback_mark_as_paid p0 resp auth_id now := by rw [hloc, hrec]
  refine ⟨?_, ?_, ?_, ?_, ?_, ?_, ?_, ?_, ?_, ?_⟩
  · show c.approveCalls + 1 ≤ 1
    omega
  · intro h0
    replace h0 : c.approveCalls + 1 = 0 := h0
    exact absurd h0 (by omega)
  · intro h1
    exact hq
  · intro j hl
    replace hl : (none : Option Bool) = some j := hl
    exact absurd hl (by simp)
  · intro j hpcj
    replace hpcj : (getThread (setThread c i _) j).pc = CallbackPC.recheck ∨
        (getThread (setThread c i _) j).pc = CallbackPC.approve := hpcj
    by_cases hj : j = i
    · subst hj
      rw [getThread_setThread_self] at hpcj
      simp at hpcj
    · rw [getThread_setThread_ne c _ i j hj] at hpcj
      exact absurd (Option.some.inj
        (hlock.symm.trans (h.thLock j hpcj))).symm hj
  · intro j hpj
    show (callback_mark_as_paid (getThread c i).localPayment resp auth_id
      now).is_paid = true
    rw [hq]
    exact callback_mark_as_paid_is_paid p0 resp auth_id now
  · intro j hpcj
    by_cases hj : j = i
    · subst hj
      replace hpcj : (getThread (setThread c j _) j).pc = CallbackPC.approve := hpcj
      rw [getThread_setThread_self] at hpcj
      simp at hpcj
    · replace hpcj : (getThread (setThread c i _) j).pc = CallbackPC.approve := hpcj
      rw [getThread_setThread_ne c _ i j hj] at hpcj
      exact absurd (Option.some.inj
        (hlock.symm.trans (h.thLock j (Or.inr hpcj)))).symm hj
  · intro j
    show (getThread (setThread c i _) j).pc = CallbackPC.finished ↔
      (getThread (setThread c i _) j).result.isSome
    by_cases hj : j = i
    · subst hj
      rw [getThread_setThread_self]
      simp
    · rw [getThread_setThread_ne c _ i j hj]
      exact h.finRes j
  · intro j hresj
    show (callback_mark_as_paid (getThread c i).localPayment resp auth_id
      now).is_paid = true
    rw [hq]
    exact callback_mark_as_paid_is_paid p0 resp auth_id now
  · show succCount (setThread c i _) = c.approveCalls + 1
    rw [succCount_setThread_succ c i
      { getThread c i with
          pc := CallbackPC.finished
          result := some CallbackOutcome.success
          localPayment :=
            callback_mark_as_paid (getThread c i).localPayment resp auth_id now }
      rfl ?_]
    · rw [h.succEq]
    · rw [result_none_of_pc_ne_finished p0
        (callback_mark_as_paid p0 resp auth_id now) c h i (by rw [hpc]; decide)]
      simp

/-- One scheduler slot preserves the invariant. -/
theorem cinv_step (resp : ApproveResponse) (auth_id : String) (now : Nat)
    (p0 : Payment) (c : CallbackConfig) (i : Bool)
    (h : CInv p0 (callback_mark_as_paid p0 resp auth_id now) c) :
    CInv p0 (callback_mark_as_paid p0 resp auth_id now)
      ((threadStep resp auth_id now c i).getD c) := by
  cases hpc : (getThread c i).pc with
  | fetch =>
      simp only [threadStep, hpc, Option.getD_some]
      exact cinv_plain_step p0 _ c i _ h rfl (by rw [hpc]; decide)
        (by rw [hpc]; decide) (by rw [hpc]; decide) (by simp) (by simp) (by simp)
        (Or.inr rfl)
  | precheck =>
      simp only [threadStep, hpc]
      by_cases hpaid : (getThread c i).localPayment.is_paid = true
      · rw [if_pos hpaid]
        simp only [Option.getD_some]
        exact cinv_already_precheck p0 _ c i h hpc hpaid
      · rw [if_neg hpaid]
        simp only [Option.getD_some]
        exact cinv_plain_step p0 _ c i _ h rfl (by rw [hpc]; decide)
          (by rw [hpc]; decide) (by rw [hpc]; decide) (by simp) (by simp) (by simp)
          (Or.inl rfl)
  | acquire =>
      simp only [threadStep, hpc]
      cases hlo : c.lockOwner with
      | some k =>
          simp only [hlo, Option.getD_none]
          exact h
      | none =>
          simp only [hlo, Option.getD_some]
          exact cinv_acquire p0 _ c i h hpc hlo
  | recheck =>
      simp only [threadStep, hpc]
      by_cases hpaid : (getThread c i).localPayment.is_paid = true
      · rw [if_pos hpaid]
        simp only [Option.getD_some]
        exact cinv_release_already p0 _ c i h hpc hpaid
      · rw [if_neg hpaid]
        simp only [Option.getD_some]
        have hpf : (getThread c i).localPayment.is_paid = false := by
          revert hpaid
          cases (getThread c i).localPayment.is_paid <;> simp
        exact cinv_recheck_continue p0 _ c i h hpc hpf
  | approve =>
      simp only [threadStep, hpc, Option.getD_some]
      exact cinv_approve resp auth_id now p0 c i h hpc
  | finished =>
      simp only [threadStep, hpc, Option.getD_none]
      exact h

theorem cinv_run (resp : ApproveResponse) (auth_id : String) (now : Nat)
    (p0 : Payment) (sched : List Bool) :
    ∀ c : CallbackConfig, CInv p0 (callback_mark_as_paid p0 resp auth_id now) c →
      CInv p0 (callback_mark_as_paid p0 resp auth_id now)
        (sched.foldl (fun c i => (threadStep resp auth_id now c i).getD c) c) := by
  induction sched with
  | nil => intro c hc; exact hc
  | cons i rest ih =>
      intro c hc
      exact ih _ (cinv_step resp auth_id now p0 c i hc)

/-- Claim C2: Two callback deliveries for the same initially unpaid record,
interleaved in any order by the scheduler, with the gateway Approve
modelled as succeeding (the claim's premise that the first call succeeds):
once both deliveries have finished, exactly one gateway Approve call was
performed; the final record is exactly the single `mark_as_paid` result
(COMPLETED — so the losing delivery observed the completed state at its
pre-lock check or at the double-check after acquiring the record lock and
made no state change); and exactly one delivery returned success while the
other returned the "already processed" outcome. -/
theorem callback_idempotent (resp : ApproveResponse) (auth_id : String)
    (now : Nat) (p0 : Payment) (sched : List Bool)
    (hp0 : p0.is_paid = false)
    (h0 : (runCallbacks resp auth_id now p0 sched).t0.pc = CallbackPC.finished)
    (h1 : (runCallbacks resp auth_id now p0 sched).t1.pc = CallbackPC.finished) :
    (runCallbacks resp auth_id now p0 sched).approveCalls = 1 ∧
    (runCallbacks resp auth_id now p0 sched).record =
      callback_mark_as_paid p0 resp auth_id now ∧
    (runCallbacks resp auth_id now p0 sched).record.is_paid = true ∧
    (((runCallbacks resp auth_id now p0 sched).t0.result =
          some CallbackOutcome.success ∧
        (runCallbacks resp auth_id now p0 sched).t1.result =
          some CallbackOutcome.alreadyProcessed) ∨
      ((runCallbacks resp auth_id now p0 sched).t0.result =
          some CallbackOutcome.alreadyProcessed ∧
        (runCallbacks resp auth_id now p0 sched).t1.result =
          some CallbackOutcome.success)) := by
  have hinv : CInv p0 (callback_mark_as_paid p0 resp auth_id now)
      (runCallbacks resp auth_id now p0 sched) :=
    cinv_run resp auth_id now p0 sched (initCallbackConfig p0)
      (cinv_init p0 (callback_mark_as_paid p0 resp auth_id now))
  have hs0 : (runCallbacks resp auth_id now p0 sched).t0.result.isSome =
      true := (hinv.finRes false).mp h0
  have hs1 : (runCallbacks resp auth_id now p0 sched).t1.result.isSome =
      true := (hinv.finRes true).mp h1
  have hsucc := hinv.succEq
  have hcase : (runCallbacks resp auth_id now p0 sched).approveCalls = 0 ∨
      (runCallbacks resp auth_id now p0 sched).approveCalls = 1 := by
    have := hinv.countLe
    omega
  -- a finished thread whose result is not success returned alreadyProcessed
  have already_of_not_succ : ∀ r : Option CallbackOutcome, r.isSome = true →
      r ≠ some CallbackOutcome.success →
      r = some CallbackOutcome.alreadyProcessed := by
    intro r hsome hne
    cases r with
    | none => simp at hsome
    | some o =>
        cases o with
        | success => exact absurd rfl hne
        | alreadyProcessed => rfl
  rcases hcase with hc0 | hc1
  · -- zero approve calls is impossible once both deliveries finished
    exfalso
    rw [hc0] at hsucc
    have hn0 : (runCallbacks resp auth_id now p0 sched).t0.result ≠
        some CallbackOutcome.success := by
      intro he
      unfold succCount at hsucc
      rw [if_pos he] at hsucc
      omega
    have ha0 := already_of_not_succ _ hs0 hn0
    have hpaidrec := hinv.alreadyPaid false ha0
    rw [hinv.rec0 hc0] at hpaidrec
    exact absurd (hp0.symm.trans hpaidrec) (by decide)
  · refine ⟨hc1, hinv.rec1 hc1, ?_, ?_⟩
    · rw [hinv.rec1 hc1]
      exact callback_mark_as_paid_is_paid p0 resp auth_id now
    · rw [hc1] at hsucc
      by_cases e0 : (runCallbacks resp auth_id now p0 sched).t0.result =
          some CallbackOutcome.success <;>
        by_cases e1 : (runCallbacks resp auth_id now p0 sched).t1.result =
          some CallbackOutcome.success
      · exfalso
        unfold succCount at hsucc
        rw [if_pos e0, if_pos e1] at hsucc
        omega
      · exact Or.inl ⟨e0, already_of_not_succ _ hs1 e1⟩
      · exact Or.inr ⟨already_of_not_succ _ hs0 e0, e1⟩
      · exfalso
        unfold succCount at hsucc
        rw [if_neg e0, if_neg e1] at hsucc
        omega

/-- Witness for C2: delivery 0 runs to completion (five steps), then
delivery 1 runs and sees the completed record at its pre-lock check. -/
theorem callback_idempotent_witness :
    samplePending.is_paid = false ∧
    (runCallbacks sampleResponse "AUTH1" 50 samplePending
      [false, false, false, false, false, true, true]).t0.pc =
      CallbackPC.finished ∧
    (runCallbacks sampleResponse "AUTH1" 50 samplePending
      [false, false, false, false, false, true, true]).t1.pc =
      CallbackPC.finished ∧
    ((runCallbacks sampleResponse "AUTH1" 50 samplePending
        [false, false, false, false, false, true, true]).approveCalls = 1 ∧
      (runCallbacks sampleResponse "AUTH1" 50 samplePending
          [false, false, false, false, false, true, true]).record =
        callback_mark_as_paid samplePending sampleResponse "AUTH1" 50 ∧
      (runCallbacks sampleResponse "AUTH1" 50 samplePending
          [false, false, false, false, false, true, true]).record.is_paid = true ∧
      (((runCallbacks sampleResponse "AUTH1" 50 samplePending
            [false, false, false, false, false, true, true]).t0.result =
            some CallbackOutcome.success ∧
          (runCallbacks sampleResponse "AUTH1" 50 samplePending
            [false, false, false, false, false, true, true]).t1.result =
            some CallbackOutcome.alreadyProcessed) ∨
        ((runCallbacks sampleResponse "AUTH1" 50 samplePending
            [false, false, false, false, false, true, true]).t0.result =
            some CallbackOutcome.alreadyProcessed ∧
          (runCallbacks sampleResponse "AUTH1" 50 samplePending
            [false, false, false, false, false, true, true]).t1.result =
            some CallbackOutcome.success))) :=
  ⟨by decide, by decide, by decide,
    callback_idempotent sampleResponse "AUTH1" 50 samplePending
      [false, false, false, false, false, true, true] (by decide) (by decide)
      (by decide)⟩

end EasyPay
